import Mathlib

/-!
Verification of the LeDesign geospatial ETL scripts.

This file shallowly embeds the Python functions of
`scripts/download-ide-data.py` and `scripts/upload-to-turso.py` that the
specification's claims are about:

* `esri_to_geojson_geometry` — the ESRI→GeoJSON geometry translator;
* `query_layer` — the paginated fetch loop (network I/O replaced by an
  explicit endpoint function `Nat → Except Unit Json`, offsets in, decoded
  JSON or transport failure out);
* `get_centroid`, `get_bbox` — the spatial summarizer;
* the per-artifact loading logic of `load_geojson_files` (row construction,
  batching, layer metadata).

JSON values are modelled by the inductive `Json` (numbers as `ℚ`).  Python's
dynamic operations (`in`, subscription, iteration, `len`, truthiness, `sum`,
division, `.get`) are modelled by explicit functions returning
`Except PyErr _`; the exception *kind* matters because the source catches
only specific exception classes (`get_centroid` catches exactly `IndexError`
and `TypeError`).
-/

/-- A JSON value as produced by Python's `json.loads`.  Numbers are modelled
by `ℚ` (Python distinguishes int/float, but all claims are about structure
and exact arithmetic, not float rounding). -/
inductive Json where
  | null
  | bool (b : Bool)
  | num (q : ℚ)
  | str (s : String)
  | arr (items : List Json)
  | obj (fields : List (String × Json))

/-- The kinds of Python exception the embedded code can raise; the kind
determines whether an `except (IndexError, TypeError)` clause catches it. -/
inductive PyErr where
  | typeError
  | indexError
  | keyError
  | attributeError
  | zeroDivisionError
  | valueError
deriving DecidableEq

/-- Python truthiness: `None`, `False`, `0`, `""`, `[]`, `{}` are falsy. -/
def py_truthy : Json → Bool
  | .null => false
  | .bool b => b
  | .num q => !(decide (q = 0))
  | .str s => !s.toList.isEmpty
  | .arr l => !l.isEmpty
  | .obj l => !l.isEmpty

/-- First-match lookup in an object's field list (Python dict keys are
unique; `json.loads` keeps the last duplicate, but the embedding only ever
builds unique-key objects, for which first-match equals dict lookup). -/
def objLookup (fields : List (String × Json)) (key : String) : Option Json :=
  match fields with
  | [] => none
  | (k, v) :: rest => if k = key then some v else objLookup rest key

/-- Python `x.get(key, dflt)`: only dicts have `.get`; any other receiver
raises `AttributeError`. -/
def py_get (j : Json) (key : String) (dflt : Json) : Except PyErr Json :=
  match j with
  | .obj fields => .ok ((objLookup fields key).getD dflt)
  | _ => .error .attributeError

/-- `j == s` for a Python value `j` and string literal `s`: only equal
strings compare equal (no cross-type equality in the cases used). -/
def jsonIsStr : Json → String → Bool
  | .str t, s => decide (t = s)
  | _, _ => false

/-- `charsStart needle hay`: `needle` is a leading segment of `hay`. -/
def charsStart : List Char → List Char → Bool
  | [], _ => true
  | _ :: _, [] => false
  | a :: as, b :: bs => a == b && charsStart as bs

/-- `charsSub needle hay`: `needle` occurs contiguously in `hay`
(Python `sub in s` for strings). -/
def charsSub (needle : List Char) : List Char → Bool
  | [] => charsStart needle []
  | c :: rest => charsStart needle (c :: rest) || charsSub needle rest

/-- Python `s in j`: key membership for dicts, element membership for lists
(a string only equals a string element), substring test for strings; any
other receiver (None, bool, number) raises `TypeError`. -/
def py_contains (j : Json) (s : String) : Except PyErr Bool :=
  match j with
  | .obj fields => .ok (fields.any (fun kv => decide (kv.1 = s)))
  | .arr items => .ok (items.any (fun x => jsonIsStr x s))
  | .str t => .ok (charsSub s.toList t.toList)
  | _ => .error .typeError

/-- Python `j[s]` with a string key: dict lookup (`KeyError` when absent);
lists and strings reject string indices with `TypeError`, as do
non-subscriptable values. -/
def py_getitem_str (j : Json) (s : String) : Except PyErr Json :=
  match j with
  | .obj fields =>
    match objLookup fields s with
    | some v => .ok v
    | none => .error .keyError
  | _ => .error .typeError

/-- Positional list lookup (`List.getElem?` by structural recursion). -/
def listGet {α : Type} : List α → Nat → Option α
  | [], _ => none
  | a :: _, 0 => some a
  | _ :: as, n + 1 => listGet as n

/-- Python `j[i]` with a non-negative int index: list/str indexing
(`IndexError` out of range); a dict decoded from JSON has only string keys,
so an int key raises `KeyError`; other values raise `TypeError`. -/
def py_index (j : Json) (i : Nat) : Except PyErr Json :=
  match j with
  | .arr l =>
    match listGet l i with
    | some v => .ok v
    | none => .error .indexError
  | .str s =>
    match listGet s.toList i with
    | some c => .ok (.str (String.singleton c))
    | none => .error .indexError
  | .obj _ => .error .keyError
  | _ => .error .typeError

/-- Python iteration: list elements, string characters (as 1-char strings),
dict keys; other values raise `TypeError`. -/
def py_iter : Json → Except PyErr (List Json)
  | .arr l => .ok l
  | .str s => .ok (s.toList.map (fun c => Json.str (String.singleton c)))
  | .obj fields => .ok (fields.map (fun kv => Json.str kv.1))
  | _ => .error .typeError

/-- Python `len(j)`: defined for lists, strings and dicts, `TypeError`
otherwise. -/
def py_len : Json → Except PyErr Nat
  | .arr l => .ok l.length
  | .str s => .ok s.length
  | .obj fields => .ok fields.length
  | _ => .error .typeError

/-- Python `j[a:b]` slices of lists and strings (`0 ≤ a ≤ b` case, the only
one the source uses); other values raise `TypeError`. -/
def py_slice (j : Json) (a b : Nat) : Except PyErr Json :=
  match j with
  | .arr l => .ok (.arr ((l.drop a).take (b - a)))
  | .str s => .ok (.str (String.mk ((s.toList.drop a).take (b - a))))
  | _ => .error .typeError

/-- Numeric coercion used by Python arithmetic: numbers are themselves,
bools are 0/1 (bool is an int subclass), everything else is non-numeric. -/
def jsonToNum : Json → Option ℚ
  | .num q => some q
  | .bool b => some (if b then 1 else 0)
  | _ => none

/-- `sum` accumulation: starts at 0, adds left to right, raising `TypeError`
at the first non-numeric element (Python `0 + x`). -/
def py_sumAux (a : ℚ) : List Json → Except PyErr ℚ
  | [] => .ok a
  | x :: xs =>
    match jsonToNum x with
    | some q => py_sumAux (a + q) xs
    | none => .error .typeError

/-- Python `sum(l)` over a list of decoded JSON values. -/
def py_sum (l : List Json) : Except PyErr ℚ := py_sumAux 0 l

/-- Python `q / n` for a float/int numerator and an int denominator:
`ZeroDivisionError` when `n = 0`. -/
def py_div (q : ℚ) (n : Nat) : Except PyErr ℚ :=
  if n = 0 then .error .zeroDivisionError else .ok (q / (n : ℚ))

/-- Python `a < b` between decoded JSON values: numbers and bools compare
numerically, strings lexicographically; mixed or unordered types raise
`TypeError` (as `min`/`max` do on such lists). -/
def py_lt (a b : Json) : Except PyErr Bool :=
  match jsonToNum a, jsonToNum b with
  | some x, some y => .ok (decide (x < y))
  | _, _ =>
    match a, b with
    | .str x, .str y => .ok (decide (x < y))
    | _, _ => .error .typeError

/-- Python `min(l)`: first element as the running value, replaced whenever a
later element compares strictly smaller; `ValueError` on an empty list. -/
def py_minAux (m : Json) : List Json → Except PyErr Json
  | [] => .ok m
  | x :: xs =>
    match py_lt x m with
    | .error e => .error e
    | .ok true => py_minAux x xs
    | .ok false => py_minAux m xs

/-- Python `min(l)`. -/
def py_min : List Json → Except PyErr Json
  | [] => .error .valueError
  | x :: xs => py_minAux x xs

/-- Python `max(l)`. -/
def py_maxAux (m : Json) : List Json → Except PyErr Json
  | [] => .ok m
  | x :: xs =>
    match py_lt m x with
    | .error e => .error e
    | .ok true => py_maxAux x xs
    | .ok false => py_maxAux m xs

/-- Python `max(l)`. -/
def py_max : List Json → Except PyErr Json
  | [] => .error .valueError
  | x :: xs => py_maxAux x xs

/-!
## The ESRI→GeoJSON geometry translator

`esri_to_geojson_geometry(esri_geom, geom_type)` from
`scripts/download-ide-data.py`, lines 63–105, translated match-for-match:
falsy geometry → `None`; dispatch on the type tag; per-tag payload checks
with `in`; fall-through → `None`.
-/

/-- `esri_to_geojson_geometry` (download-ide-data.py:63–105). -/
def esri_to_geojson_geometry (esri_geom : Json) (geom_type : String) :
    Except PyErr Json :=
  if py_truthy esri_geom then
    if geom_type = "esriGeometryPoint" then
      match py_contains esri_geom "x" with
      | .error e => .error e
      | .ok false => .ok .null
      | .ok true =>
        match py_contains esri_geom "y" with
        | .error e => .error e
        | .ok false => .ok .null
        | .ok true =>
          match py_getitem_str esri_geom "x" with
          | .error e => .error e
          | .ok xv =>
            match py_getitem_str esri_geom "y" with
            | .error e => .error e
            | .ok yv =>
              .ok (.obj [("type", .str "Point"),
                         ("coordinates", .arr [xv, yv])])
    else if geom_type = "esriGeometryPolyline" then
      match py_contains esri_geom "paths" with
      | .error e => .error e
      | .ok false => .ok .null
      | .ok true =>
        match py_getitem_str esri_geom "paths" with
        | .error e => .error e
        | .ok pv =>
          match py_len pv with
          | .error e => .error e
          | .ok n =>
            if n = 1 then
              match py_getitem_str esri_geom "paths" with
              | .error e => .error e
              | .ok pv2 =>
                match py_index pv2 0 with
                | .error e => .error e
                | .ok p0 =>
                  .ok (.obj [("type", .str "LineString"),
                             ("coordinates", p0)])
            else
              match py_getitem_str esri_geom "paths" with
              | .error e => .error e
              | .ok pv2 =>
                .ok (.obj [("type", .str "MultiLineString"),
                           ("coordinates", pv2)])
    else if geom_type = "esriGeometryPolygon" then
      match py_contains esri_geom "rings" with
      | .error e => .error e
      | .ok false => .ok .null
      | .ok true =>
        match py_getitem_str esri_geom "rings" with
        | .error e => .error e
        | .ok rv =>
          match py_len rv with
          | .error e => .error e
          | .ok n =>
            if n = 1 then
              match py_getitem_str esri_geom "rings" with
              | .error e => .error e
              | .ok rv2 =>
                .ok (.obj [("type", .str "Polygon"),
                           ("coordinates", rv2)])
            else
              match py_getitem_str esri_geom "rings" with
              | .error e => .error e
              | .ok rv2 =>
                match py_iter rv2 with
                | .error e => .error e
                | .ok rs =>
                  .ok (.obj [("type", .str "MultiPolygon"),
                             ("coordinates",
                              .arr (rs.map (fun r => Json.arr [r])))])
    else if geom_type = "esriGeometryMultipoint" then
      match py_contains esri_geom "points" with
      | .error e => .error e
      | .ok false => .ok .null
      | .ok true =>
        match py_getitem_str esri_geom "points" with
        | .error e => .error e
        | .ok pts =>
          .ok (.obj [("type", .str "MultiPoint"),
                     ("coordinates", pts)])
    else .ok .null
  else .ok .null


/-!
## The spatial summarizer

`get_centroid(geometry)` from `scripts/upload-to-turso.py`, lines 69–118.
The `try:` block's body is `centroid_try`; a branch that neither returns
nor raises "falls through" to the final `return (None, None)`, modelled by
returning `none`.  The `except (IndexError, TypeError): pass` clause is the
final match in `get_centroid`: exactly those two kinds degrade to
`(None, None)`; any other exception propagates.
-/

/-- The repeated four lines `lons = [c[0] for c in cs]; lats = …;
return (sum(lons)/len(lons), sum(lats)/len(lats))` of `get_centroid`,
evaluation order preserved. -/
def compIndex (k : Nat) : List Json → Except PyErr (List Json)
  | [] => .ok []
  | c :: cs =>
    match py_index c k with
    | .error e => .error e
    | .ok v =>
      match compIndex k cs with
      | .error e => .error e
      | .ok r => .ok (v :: r)

/-- `[c for line in lines for c in line]`. -/
def compFlat : List Json → Except PyErr (List Json)
  | [] => .ok []
  | l :: ls =>
    match py_iter l with
    | .error e => .error e
    | .ok cs =>
      match compFlat ls with
      | .error e => .error e
      | .ok r => .ok (cs ++ r)

/-- `[c for poly in polys for ring in poly for c in ring]`. -/
def compFlat2 : List Json → Except PyErr (List Json)
  | [] => .ok []
  | p :: ps =>
    match py_iter p with
    | .error e => .error e
    | .ok rs =>
      match compFlat rs with
      | .error e => .error e
      | .ok cs =>
        match compFlat2 ps with
        | .error e => .error e
        | .ok r => .ok (cs ++ r)

/-- The mean-pair computation shared verbatim by the LineString, Polygon,
MultiLineString, MultiPolygon and MultiPoint branches of `get_centroid`. -/
def meanPair (cs : List Json) : Except PyErr (Json × Json) :=
  match compIndex 0 cs with
  | .error e => .error e
  | .ok lons =>
    match compIndex 1 cs with
    | .error e => .error e
    | .ok lats =>
      match py_sum lons with
      | .error e => .error e
      | .ok sl =>
        match py_div sl lons.length with
        | .error e => .error e
        | .ok ml =>
          match py_sum lats with
          | .error e => .error e
          | .ok st =>
            match py_div st lats.length with
            | .error e => .error e
            | .ok mt => .ok (.num ml, .num mt)

/-- Body of the `try:` block of `get_centroid` (upload-to-turso.py:80–113).
`some` is an explicit `return`, `none` is fall-through to the final
`return (None, None)`. -/
def centroid_try (geom_type coords : Json) :
    Except PyErr (Option (Json × Json)) :=
  if jsonIsStr geom_type "Point" then
    match py_index coords 0 with
    | .error e => .error e
    | .ok a =>
      match py_index coords 1 with
      | .error e => .error e
      | .ok b => .ok (some (a, b))
  else if jsonIsStr geom_type "LineString" then
    match py_iter coords with
    | .error e => .error e
    | .ok cs =>
      match meanPair cs with
      | .error e => .error e
      | .ok v => .ok (some v)
  else if jsonIsStr geom_type "Polygon" then
    -- ring = coords[0] if coords else []  (coords is truthy here)
    match (if py_truthy coords then py_index coords 0 else .ok (.arr [])) with
    | .error e => .error e
    | .ok ring =>
      if py_truthy ring then
        match py_iter ring with
        | .error e => .error e
        | .ok cs =>
          match meanPair cs with
          | .error e => .error e
          | .ok v => .ok (some v)
      else .ok none
  else if jsonIsStr geom_type "MultiLineString" then
    match py_iter coords with
    | .error e => .error e
    | .ok lines =>
      match compFlat lines with
      | .error e => .error e
      | .ok allc =>
        if allc.isEmpty then .ok none
        else
          match meanPair allc with
          | .error e => .error e
          | .ok v => .ok (some v)
  else if jsonIsStr geom_type "MultiPolygon" then
    match py_iter coords with
    | .error e => .error e
    | .ok polys =>
      match compFlat2 polys with
      | .error e => .error e
      | .ok allc =>
        if allc.isEmpty then .ok none
        else
          match meanPair allc with
          | .error e => .error e
          | .ok v => .ok (some v)
  else if jsonIsStr geom_type "MultiPoint" then
    match py_iter coords with
    | .error e => .error e
    | .ok cs =>
      match meanPair cs with
      | .error e => .error e
      | .ok v => .ok (some v)
  else .ok none

/-- `get_centroid` (upload-to-turso.py:69–118). -/
def get_centroid (geometry : Json) : Except PyErr (Json × Json) :=
  if py_truthy geometry then
    match py_get geometry "type" (.str "") with
    | .error e => .error e
    | .ok geom_type =>
      match py_get geometry "coordinates" (.arr []) with
      | .error e => .error e
      | .ok coords =>
        if py_truthy coords then
          match centroid_try geom_type coords with
          | .ok (some v) => .ok v
          | .ok none => .ok (.null, .null)
          | .error .indexError => .ok (.null, .null)
          | .error .typeError => .ok (.null, .null)
          | .error e => .error e
        else .ok (.null, .null)
  else .ok (.null, .null)

/-- The collection loop of `get_bbox` (upload-to-turso.py:126–130):
`lons`/`lats` of the centroids whose first component `is not None`, in
input order.  `get_centroid` exceptions propagate (no `try` here). -/
def bbox_collect : List Json → Except PyErr (List Json × List Json)
  | [] => .ok ([], [])
  | f :: fs =>
    match py_get f "geometry" .null with
    | .error e => .error e
    | .ok g =>
      match get_centroid g with
      | .error e => .error e
      | .ok c =>
        match bbox_collect fs with
        | .error e => .error e
        | .ok (lons, lats) =>
          match c.1 with
          | .null => .ok (lons, lats)
          | v => .ok (v :: lons, c.2 :: lats)

/-- `get_bbox` (upload-to-turso.py:121–134).  The parameter is the value
`data.get("features", [])` that the caller iterates, hence `Json`. -/
def get_bbox (features : Json) : Except PyErr (Json × Json × Json × Json) :=
  match py_iter features with
  | .error e => .error e
  | .ok fl =>
    match bbox_collect fl with
    | .error e => .error e
    | .ok (lons, lats) =>
      if !lons.isEmpty && !lats.isEmpty then
        match py_min lons with
        | .error e => .error e
        | .ok w =>
          match py_min lats with
          | .error e => .error e
          | .ok s =>
            match py_max lons with
            | .error e => .error e
            | .ok ea =>
              match py_max lats with
              | .error e => .error e
              | .ok n => .ok (w, s, ea, n)
      else .ok (.null, .null, .null, .null)

/-!
## The paginated fetcher

`query_layer(base_url, layer_id, max_records)` from
`scripts/download-ide-data.py`, lines 132–186.  The network is abstracted as
`endpoint : Nat → Except Unit Json`: the request at `resultOffset = offset`
either fails (any exception in `urlopen`/`read`/`json.loads`, caught by the
`except Exception` clause) or yields the decoded JSON value.  `page_size` is
the source's hard-coded 1000.  The loop state also records, for the
theorems, the number of requests issued and the list of successfully
decoded responses; `last` is the Python variable `data` (assigned only on a
successful decode, probed at the end via `"data" in dir()`).
-/

/-- Result of one `query_loop` run. -/
structure LoopOut where
  features : List Json
  last : Option Json
  requests : Nat
  pages : List Json

/-- The `while True:` loop of `query_layer` (download-ide-data.py:138–174).
Each arm that breaks returns the state; the only recursive call is the
`offset += page_size` continuation.  Termination: a continuing iteration
appends a page of ≥ 1000 features while the new total is still below
`max_records`. -/
def query_loop (endpoint : Nat → Except Unit Json) (max_records : Nat)
    (offset : Nat) (acc : List Json) (last : Option Json)
    (reqs : Nat) (pages : List Json) : LoopOut :=
  match endpoint offset with
  | .error _ => ⟨acc, last, reqs + 1, pages⟩
  | .ok data =>
    match py_contains data "error" with
    | .error _ => ⟨acc, some data, reqs + 1, pages ++ [data]⟩
    | .ok true => ⟨acc, some data, reqs + 1, pages ++ [data]⟩
    | .ok false =>
      match py_get data "features" (.arr []) with
      | .error _ => ⟨acc, some data, reqs + 1, pages ++ [data]⟩
      | .ok fj =>
        if py_truthy fj then
          match py_iter fj with
          | .error _ => ⟨acc, some data, reqs + 1, pages ++ [data]⟩
          | .ok feats =>
            if h : feats.length < 1000 ∨ max_records ≤ (acc ++ feats).length
            then ⟨acc ++ feats, some data, reqs + 1, pages ++ [data]⟩
            else
              query_loop endpoint max_records (offset + 1000) (acc ++ feats)
                (some data) (reqs + 1) (pages ++ [data])
        else ⟨acc, some data, reqs + 1, pages ++ [data]⟩
termination_by max_records - acc.length
decreasing_by
  simp only [not_or, not_lt, not_le, List.length_append] at h ⊢
  omega

/-- The fetcher's return value (the raw ESRI-format payload). -/
structure FetchResult where
  features : List Json
  geometryType : Json

/-- `query_layer` (download-ide-data.py:132–186): run the loop, then build
the result dict.  Line 179 reads `data.get("geometryType", "")` when `data`
was ever assigned (raising `AttributeError` when the last decoded response
is not a dict); line 183 overwrites with `data["geometryType"]` when the
accumulator is non-empty and the key is present. -/
def query_layer (endpoint : Nat → Except Unit Json)
    (max_records : Nat := 10000) : Except PyErr FetchResult :=
  match (query_loop endpoint max_records 0 [] none 0 []).last with
  | none =>
    .ok ⟨(query_loop endpoint max_records 0 [] none 0 []).features,
         .str ""⟩
  | some data =>
    match py_get data "geometryType" (.str "") with
    | .error e => .error e
    | .ok g0 =>
      if !(query_loop endpoint max_records 0 [] none 0
          []).features.isEmpty then
        match py_contains data "geometryType" with
        | .error e => .error e
        | .ok true =>
          match py_getitem_str data "geometryType" with
          | .error e => .error e
          | .ok g1 =>
            .ok ⟨(query_loop endpoint max_records 0 [] none 0
                []).features, g1⟩
        | .ok false =>
          .ok ⟨(query_loop endpoint max_records 0 [] none 0
              []).features, g0⟩
      else
        .ok ⟨(query_loop endpoint max_records 0 [] none 0 []).features,
             g0⟩

/-!
## The indexed loader (per-artifact logic)

From `load_geojson_files` in `scripts/upload-to-turso.py`, lines 172–228:
the pure per-file computation between a successful `json.load` and the
SQL inserts.  A row models the bound parameters of one `INSERT INTO
features`; the layer row models the parameters of `INSERT INTO layers`.
`json.dumps` (an injective serialization of the stored geometry and
properties) is modelled by storing the value itself, `None` as `none`.
-/

/-- Bound parameters of one `INSERT INTO features` row
(upload-to-turso.py:219–224). -/
structure FeatureRow where
  layer_id : String
  geometry_type : Json
  geometry : Option Json
  centroid_lon : Json
  centroid_lat : Json
  properties : Json

/-- Lines 209–224: build one feature row.  Order of effects preserved:
`feature.get("geometry")`, `feature.get("properties", {})`, truthiness for
`geom_json`, `get_centroid`, then `geometry.get("type") if geometry else
None`. -/
def featureRow (layer_id : String) (feature : Json) :
    Except PyErr FeatureRow :=
  match py_get feature "geometry" .null with
  | .error e => .error e
  | .ok geometry =>
    match py_get feature "properties" (.obj []) with
    | .error e => .error e
    | .ok props =>
      -- geom_json := json.dumps(geometry) if geometry else None
      match get_centroid geometry with
      | .error e => .error e
      | .ok centroid =>
        match (if py_truthy geometry then py_get geometry "type" .null
               else .ok .null) with
        | .error e => .error e
        | .ok fgt =>
          .ok ⟨layer_id, fgt,
               if py_truthy geometry then some geometry else none,
               centroid.1, centroid.2, props⟩

/-- Lines 186–190: `geom_type` is taken from the first feature whose
`feat.get("geometry")` is truthy, via `feat["geometry"].get("type")`;
`None` when no feature has one. -/
def firstGeomType : List Json → Except PyErr Json
  | [] => .ok .null
  | f :: fs =>
    match py_get f "geometry" .null with
    | .error e => .error e
    | .ok g =>
      if py_truthy g then
        match py_getitem_str f "geometry" with
        | .error e => .error e
        | .ok g2 => py_get g2 "type" .null
      else firstGeomType fs

/-- Python `str.title()` restricted to what the display name needs:
capitalize the first letter of every space-separated word. -/
def pyTitleWord : List Char → List Char
  | [] => []
  | c :: cs => c.toUpper :: cs

/-- `layer_id.replace("_"," ").replace("-"," ").title()`
(upload-to-turso.py:200). -/
def pyTitle (s : String) : String :=
  String.mk
    (((s.toList.map (fun c => if c = '_' || c = '-' then ' ' else c)).splitOn
        ' ').map pyTitleWord |>.intersperse [' '] |>.flatten)

/-- Bound parameters of the `INSERT INTO layers` row
(upload-to-turso.py:196–202). -/
structure LayerRow where
  id : String
  name : String
  source_file : String
  geometry_type : Json
  feature_count : Nat
  bbox : Json × Json × Json × Json

/-- Python `range(0, stop, step)` for `step > 0`. -/
def pyRange3 (stop step : Nat) : List Nat :=
  (List.range ((stop + step - 1) / step)).map (fun k => k * step)

/-- The inner `for feature in batch:` loop of lines 209–224: one row per
feature, first exception aborts. -/
def insertBatch (layer_id : String) : List Json → Except PyErr (List FeatureRow)
  | [] => .ok []
  | f :: fs =>
    match featureRow layer_id f with
    | .error e => .error e
    | .ok r =>
      match insertBatch layer_id fs with
      | .error e => .error e
      | .ok rest => .ok (r :: rest)

/-- Lines 206–224: `for i in range(0, len(features), 500):
batch = features[i:i+500]; for feature in batch: INSERT…`.  Returns the
inserted rows in order. -/
def batchRows (features : Json) (layer_id : String) :
    List Nat → Except PyErr (List FeatureRow)
  | [] => .ok []
  | i :: is =>
    match py_slice features i (i + 500) with
    | .error e => .error e
    | .ok batch =>
      match py_iter batch with
      | .error e => .error e
      | .ok bl =>
        match insertBatch layer_id bl with
        | .error e => .error e
        | .ok rows =>
          match batchRows features layer_id is with
          | .error e => .error e
          | .ok rest => .ok (rows ++ rest)

/-- Lines 176–228 for one parsed artifact `data` of file `filename`:
`none` when the artifact is skipped (`features` falsy), otherwise the
layer row and the feature rows inserted, in order. -/
def load_geojson_file (filename : String) (data : Json) :
    Except PyErr (Option (LayerRow × List FeatureRow)) :=
  match py_get data "features" (.arr []) with
  | .error e => .error e
  | .ok features =>
    if py_truthy features then
      match py_iter features with
      | .error e => .error e
      | .ok fl =>
        match firstGeomType fl with
        | .error e => .error e
        | .ok geom_type =>
          match get_bbox features with
          | .error e => .error e
          | .ok bbox =>
            match py_len features with
            | .error e => .error e
            | .ok n =>
              match batchRows features (filename.replace ".geojson" "")
                  (pyRange3 n 500) with
              | .error e => .error e
              | .ok rows =>
                .ok (some
                  (⟨filename.replace ".geojson" "",
                    pyTitle ((((filename.replace ".geojson" "").replace
                      "_" " ").replace "-" " ")),
                    filename, geom_type, n, bbox⟩, rows))
    else .ok none

/-!
## Structured standard geometries (the data model of spec §3)

`SGeom` is the spec's `StandardGeometry` with numeric coordinate pairs;
`SGeom.toJson` renders it as the GeoJSON `Json` value the code consumes.
These are the "well-formed standard geometry" inputs the claims quantify
over; the embedded code itself always runs on raw `Json`.
-/

/-- A coordinate pair rendered as GeoJSON `[lon, lat]`. -/
def pairJson (p : ℚ × ℚ) : Json := .arr [.num p.1, .num p.2]

/-- A vertex list rendered as a GeoJSON coordinate array. -/
def ringJson (r : List (ℚ × ℚ)) : Json := .arr (r.map pairJson)

/-- The spec's `StandardGeometry` tagged union (§3), numeric payloads. -/
inductive SGeom where
  | point (x y : ℚ)
  | lineString (cs : List (ℚ × ℚ))
  | polygon (rings : List (List (ℚ × ℚ)))
  | multiLineString (lines : List (List (ℚ × ℚ)))
  | multiPolygon (polys : List (List (List (ℚ × ℚ))))
  | multiPoint (cs : List (ℚ × ℚ))

/-- Render a standard geometry as its GeoJSON object. -/
def SGeom.toJson : SGeom → Json
  | .point x y =>
    .obj [("type", .str "Point"), ("coordinates", .arr [.num x, .num y])]
  | .lineString cs =>
    .obj [("type", .str "LineString"), ("coordinates", ringJson cs)]
  | .polygon rings =>
    .obj [("type", .str "Polygon"), ("coordinates", .arr (rings.map ringJson))]
  | .multiLineString lines =>
    .obj [("type", .str "MultiLineString"),
          ("coordinates", .arr (lines.map ringJson))]
  | .multiPolygon polys =>
    .obj [("type", .str "MultiPolygon"),
          ("coordinates",
           .arr (polys.map (fun poly => Json.arr (poly.map ringJson))))]
  | .multiPoint cs =>
    .obj [("type", .str "MultiPoint"), ("coordinates", ringJson cs)]

/-- Well-formedness: the vertex set a centroid averages over is non-empty
(for a Polygon, the first ring exists and is non-empty). -/
def SGeom.wf : SGeom → Prop
  | .point _ _ => True
  | .lineString cs => cs ≠ []
  | .polygon rings => ∃ r rest, rings = r :: rest ∧ r ≠ []
  | .multiLineString lines => lines.flatten ≠ []
  | .multiPolygon polys => (polys.map List.flatten).flatten ≠ []
  | .multiPoint cs => cs ≠ []

/-- Mean of the first components of a vertex list. -/
def meanFst (cs : List (ℚ × ℚ)) : ℚ := (cs.map Prod.fst).sum / (cs.length : ℚ)

/-- Mean of the second components of a vertex list. -/
def meanSnd (cs : List (ℚ × ℚ)) : ℚ := (cs.map Prod.snd).sum / (cs.length : ℚ)

/-- The centroid the spec prescribes per geometry kind (§4.4): the point
itself; the unweighted vertex mean for LineString/MultiPoint; the first
ring's mean for Polygon; the flattened vertex mean for MultiLineString and
MultiPolygon. -/
def sgeomCentroid : SGeom → ℚ × ℚ
  | .point x y => (x, y)
  | .lineString cs => (meanFst cs, meanSnd cs)
  | .polygon [] => (0, 0)
  | .polygon (r :: _) => (meanFst r, meanSnd r)
  | .multiLineString lines => (meanFst lines.flatten, meanSnd lines.flatten)
  | .multiPolygon polys =>
    (meanFst (polys.map List.flatten).flatten,
     meanSnd (polys.map List.flatten).flatten)
  | .multiPoint cs => (meanFst cs, meanSnd cs)

/-- A Feature of the data model (§3): `geometry: StandardGeometry | null`,
rendered as the artifact JSON the loader reads. -/
def toJsonFeature (g : Option SGeom) : Json :=
  .obj [("type", .str "Feature"),
        ("geometry", match g with | some s => s.toJson | none => .null),
        ("properties", .obj [])]

/-!
## Basic lemmas about the primitives
-/

theorem objLookup_any (fields : List (String × Json)) (key : String) :
    (fields.any (fun kv => decide (kv.1 = key))) = (objLookup fields key).isSome := by
  induction fields with
  | nil => rfl
  | cons kv rest ih =>
    obtain ⟨k, v⟩ := kv
    by_cases h : k = key <;> simp [objLookup, h, ih]

theorem objLookup_ne_nil {fields : List (String × Json)} {key : String}
    {v : Json} (h : objLookup fields key = some v) : fields.isEmpty = false := by
  cases fields with
  | nil => simp [objLookup] at h
  | cons kv rest => rfl

theorem compIndex_pairs0 (cs : List (ℚ × ℚ)) :
    compIndex 0 (cs.map pairJson) = .ok (cs.map (fun p => Json.num p.1)) := by
  induction cs with
  | nil => rfl
  | cons p rest ih => simp [compIndex, pairJson, py_index, listGet, ih]

theorem compIndex_pairs1 (cs : List (ℚ × ℚ)) :
    compIndex 1 (cs.map pairJson) = .ok (cs.map (fun p => Json.num p.2)) := by
  induction cs with
  | nil => rfl
  | cons p rest ih => simp [compIndex, pairJson, py_index, listGet, ih]

theorem py_sumAux_nums (l : List ℚ) : ∀ a : ℚ,
    py_sumAux a (l.map Json.num) = .ok (a + l.sum) := by
  induction l with
  | nil => intro a; simp [py_sumAux]
  | cons q rest ih =>
    intro a
    simp [py_sumAux, jsonToNum, ih, add_assoc]

theorem py_sum_nums (l : List ℚ) : py_sum (l.map Json.num) = .ok l.sum := by
  simpa [py_sum] using py_sumAux_nums l 0

theorem meanPair_pairs (cs : List (ℚ × ℚ)) (h : cs ≠ []) :
    meanPair (cs.map pairJson) = .ok (.num (meanFst cs), .num (meanSnd cs)) := by
  have e0 := compIndex_pairs0 cs
  have e1 := compIndex_pairs1 cs
  rw [show (cs.map (fun p => Json.num p.1)) = ((cs.map Prod.fst).map Json.num)
      from by simp] at e0
  rw [show (cs.map (fun p => Json.num p.2)) = ((cs.map Prod.snd).map Json.num)
      from by simp] at e1
  have hlen : cs.length ≠ 0 := by simpa using h
  simp only [meanPair, e0, e1, py_sum_nums, List.length_map, py_div, hlen,
    if_false, reduceIte]
  simp [meanFst, meanSnd]

theorem compFlat_rings (lines : List (List (ℚ × ℚ))) :
    compFlat (lines.map ringJson) = .ok (lines.flatten.map pairJson) := by
  induction lines with
  | nil => rfl
  | cons l rest ih => simp [compFlat, ringJson, py_iter, ih]

theorem compFlat2_polys (polys : List (List (List (ℚ × ℚ)))) :
    compFlat2 (polys.map (fun poly => Json.arr (poly.map ringJson))) =
      .ok ((polys.map List.flatten).flatten.map pairJson) := by
  induction polys with
  | nil => rfl
  | cons poly rest ih => simp [compFlat2, py_iter, compFlat_rings, ih]

/-- Unfold `get_centroid` on a two-field geometry object whose coordinates
are truthy: what remains is the `try` dispatch. -/
theorem get_centroid_eval (tag : String) (coords : Json)
    (hc : py_truthy coords = true) :
    get_centroid (.obj [("type", .str tag), ("coordinates", coords)]) =
      (match centroid_try (.str tag) coords with
       | .ok (some v) => .ok v
       | .ok none => .ok (.null, .null)
       | .error .indexError => .ok (.null, .null)
       | .error .typeError => .ok (.null, .null)
       | .error e => .error e) := by
  unfold get_centroid
  simp only [py_get,
    show objLookup [("type", Json.str tag), ("coordinates", coords)] "type"
      = some (Json.str tag) from rfl,
    show objLookup [("type", Json.str tag), ("coordinates", coords)]
        "coordinates" = some coords from rfl,
    Option.getD, hc,
    show py_truthy (.obj [("type", .str tag), ("coordinates", coords)])
      = true from rfl, reduceIte]

theorem centroid_try_lineString (coords : Json) :
    centroid_try (.str "LineString") coords =
      (match py_iter coords with
       | .error e => .error e
       | .ok cs =>
         match meanPair cs with
         | .error e => .error e
         | .ok v => .ok (some v)) := rfl

theorem centroid_try_polygon (coords : Json) :
    centroid_try (.str "Polygon") coords =
      (match (if py_truthy coords then py_index coords 0
              else .ok (.arr [])) with
       | .error e => .error e
       | .ok ring =>
         if py_truthy ring then
           match py_iter ring with
           | .error e => .error e
           | .ok cs =>
             match meanPair cs with
             | .error e => .error e
             | .ok v => .ok (some v)
         else .ok none) := rfl

theorem centroid_try_multiLineString (coords : Json) :
    centroid_try (.str "MultiLineString") coords =
      (match py_iter coords with
       | .error e => .error e
       | .ok lines =>
         match compFlat lines with
         | .error e => .error e
         | .ok allc =>
           if allc.isEmpty then .ok none
           else
             match meanPair allc with
             | .error e => .error e
             | .ok v => .ok (some v)) := rfl

theorem centroid_try_multiPolygon (coords : Json) :
    centroid_try (.str "MultiPolygon") coords =
      (match py_iter coords with
       | .error e => .error e
       | .ok polys =>
         match compFlat2 polys with
         | .error e => .error e
         | .ok allc =>
           if allc.isEmpty then .ok none
           else
             match meanPair allc with
             | .error e => .error e
             | .ok v => .ok (some v)) := rfl

theorem centroid_try_multiPoint (coords : Json) :
    centroid_try (.str "MultiPoint") coords =
      (match py_iter coords with
       | .error e => .error e
       | .ok cs =>
         match meanPair cs with
         | .error e => .error e
         | .ok v => .ok (some v)) := rfl

/-- On a well-formed standard geometry rendered as GeoJSON, `get_centroid`
computes exactly the spec's per-kind centroid. -/
theorem get_centroid_toJson (g : SGeom) (hg : g.wf) :
    get_centroid g.toJson =
      .ok (.num (sgeomCentroid g).1, .num (sgeomCentroid g).2) := by
  cases g with
  | point x y => rfl
  | lineString cs =>
    obtain ⟨c, cs', rfl⟩ := List.exists_cons_of_ne_nil hg
    have hm := meanPair_pairs (c :: cs') (List.cons_ne_nil c cs')
    show get_centroid (.obj [("type", .str "LineString"),
      ("coordinates", ringJson (c :: cs'))]) = _
    rw [get_centroid_eval _ _ (by rfl), centroid_try_lineString]
    simp only [show py_iter (ringJson (c :: cs'))
      = .ok ((c :: cs').map pairJson) from rfl, hm, sgeomCentroid]
  | polygon rings =>
    obtain ⟨r, rest, rfl, hr⟩ := hg
    obtain ⟨p, r', rfl⟩ := List.exists_cons_of_ne_nil hr
    have hm := meanPair_pairs (p :: r') (List.cons_ne_nil p r')
    show get_centroid (.obj [("type", .str "Polygon"),
      ("coordinates", .arr (((p :: r') :: rest).map ringJson))]) = _
    rw [get_centroid_eval _ _ (by rfl), centroid_try_polygon]
    simp only [show py_truthy (.arr (((p :: r') :: rest).map ringJson))
        = true from rfl,
      show py_index (.arr (((p :: r') :: rest).map ringJson)) 0
        = .ok (ringJson (p :: r')) from rfl,
      show py_truthy (ringJson (p :: r')) = true from rfl,
      show py_iter (ringJson (p :: r')) = .ok ((p :: r').map pairJson)
        from rfl,
      reduceIte, hm, sgeomCentroid]
  | multiLineString lines =>
    have hl : lines ≠ [] := by
      intro h; rw [h] at hg; exact hg rfl
    have hfl : lines.flatten ≠ [] := hg
    obtain ⟨l0, ls', rfl⟩ := List.exists_cons_of_ne_nil hl
    have hm := meanPair_pairs ((l0 :: ls').flatten) hfl
    have hne : (((l0 :: ls').flatten).map pairJson).isEmpty = false := by
      obtain ⟨z, zs, hz⟩ := List.exists_cons_of_ne_nil hfl
      rw [hz]; rfl
    show get_centroid (.obj [("type", .str "MultiLineString"),
      ("coordinates", .arr ((l0 :: ls').map ringJson))]) = _
    rw [get_centroid_eval _ _ (by rfl), centroid_try_multiLineString]
    simp only [show py_iter (.arr ((l0 :: ls').map ringJson))
        = .ok ((l0 :: ls').map ringJson) from rfl,
      compFlat_rings, hne, Bool.false_eq_true, if_false, hm, sgeomCentroid]
  | multiPolygon polys =>
    have hp : polys ≠ [] := by
      intro h; rw [h] at hg; exact hg rfl
    have hfl : (polys.map List.flatten).flatten ≠ [] := hg
    obtain ⟨p0, ps', rfl⟩ := List.exists_cons_of_ne_nil hp
    have hm := meanPair_pairs (((p0 :: ps').map List.flatten).flatten) hfl
    have hne : ((((p0 :: ps').map List.flatten).flatten).map
        pairJson).isEmpty = false := by
      obtain ⟨z, zs, hz⟩ := List.exists_cons_of_ne_nil hfl
      rw [hz]; rfl
    show get_centroid (.obj [("type", .str "MultiPolygon"),
      ("coordinates",
       .arr ((p0 :: ps').map (fun poly => Json.arr (poly.map ringJson))))])
      = _
    rw [get_centroid_eval _ _ (by rfl), centroid_try_multiPolygon]
    simp only [show py_iter (.arr ((p0 :: ps').map
        (fun poly => Json.arr (poly.map ringJson))))
        = .ok ((p0 :: ps').map (fun poly => Json.arr (poly.map ringJson)))
        from rfl,
      compFlat2_polys, hne, Bool.false_eq_true, if_false, hm, sgeomCentroid]
  | multiPoint cs =>
    obtain ⟨c, cs', rfl⟩ := List.exists_cons_of_ne_nil hg
    have hm := meanPair_pairs (c :: cs') (List.cons_ne_nil c cs')
    show get_centroid (.obj [("type", .str "MultiPoint"),
      ("coordinates", ringJson (c :: cs'))]) = _
    rw [get_centroid_eval _ _ (by rfl), centroid_try_multiPoint]
    simp only [show py_iter (ringJson (c :: cs'))
      = .ok ((c :: cs').map pairJson) from rfl, hm, sgeomCentroid]

/-- C5: on every well-formed standard geometry, `get_centroid` returns the
point's own coordinates for Point, the unweighted vertex mean for
LineString/MultiPoint, the first ring's mean for Polygon (later rings
ignored), the flattened vertex mean for MultiLineString and MultiPolygon
(`sgeomCentroid` is exactly that case list); and `(null, null)` for a null
geometry, an empty object, or a geometry with no coordinates.  In
particular a Point with coordinates [10, 20] yields centroid (10, 20),
which is the `point` case of the first conjunct. -/
theorem centroid_spec_cases :
    (∀ g : SGeom, g.wf →
      get_centroid g.toJson =
        .ok (.num (sgeomCentroid g).1, .num (sgeomCentroid g).2)) ∧
    get_centroid .null = .ok (.null, .null) ∧
    get_centroid (.obj []) = .ok (.null, .null) ∧
    get_centroid (SGeom.toJson (.lineString [])) = .ok (.null, .null) ∧
    get_centroid (SGeom.toJson (.polygon [])) = .ok (.null, .null) ∧
    get_centroid (SGeom.toJson (.multiLineString [])) = .ok (.null, .null) ∧
    get_centroid (SGeom.toJson (.multiPolygon [])) = .ok (.null, .null) ∧
    get_centroid (SGeom.toJson (.multiPoint [])) = .ok (.null, .null) :=
  ⟨get_centroid_toJson, rfl, rfl, rfl, rfl, rfl, rfl, rfl⟩

/-- Witness for C5: the Point `[10, 20]` boundary example of the spec, and
a two-vertex LineString averaging to `(5, 10)`. -/
theorem centroid_spec_cases_witness :
    get_centroid (SGeom.toJson (.point 10 20)) = .ok (.num 10, .num 20) ∧
    get_centroid (SGeom.toJson (.lineString [(0, 0), (10, 20)])) =
      .ok (.num 5, .num 10) :=
  ⟨centroid_spec_cases.1 (.point 10 20) trivial, by
    have h := centroid_spec_cases.1 (.lineString [(0, 0), (10, 20)])
      (List.cons_ne_nil _ _)
    norm_num [sgeomCentroid, meanFst, meanSnd] at h
    exact h⟩

/-!
## Totality analysis of `get_centroid`

The `except (IndexError, TypeError)` clause catches exactly those two
kinds.  `TameRes r` says a computation can only fail with a caught kind.
`noObjDepth n j` says no JSON object occurs in `j` down to nesting depth
`n`; objects in the coordinate payload are the one source of uncaught
`KeyError` (integer subscript on a dict), and a truthy non-dict geometry is
the source of uncaught `AttributeError`.
-/

/-- The computation either succeeds or raises a kind caught by
`except (IndexError, TypeError)`. -/
def TameRes {α : Type} (r : Except PyErr α) : Prop :=
  ∀ e, r = .error e → e = .typeError ∨ e = .indexError

/-- No `.obj` occurs in `j` at depths `0..n`. -/
def noObjDepth : Nat → Json → Bool
  | _, .obj _ => false
  | 0, _ => true
  | n + 1, .arr l => l.all (noObjDepth n)
  | _ + 1, _ => true

theorem noObjDepth_obj (n : Nat) (kvs : List (String × Json)) :
    noObjDepth n (.obj kvs) = false := by
  cases n <;> rfl

theorem noObjDepth_str (n : Nat) (s : String) :
    noObjDepth n (.str s) = true := by
  cases n <;> rfl

theorem listGet_mem {α : Type} {l : List α} {i : Nat} {a : α}
    (h : listGet l i = some a) : a ∈ l := by
  induction l generalizing i with
  | nil => simp [listGet] at h
  | cons x xs ih =>
    cases i with
    | zero => simp [listGet] at h; simp [h]
    | succ n => exact List.mem_cons_of_mem x (ih h)

theorem tame_py_index {n : Nat} {j : Json} (h : noObjDepth n j = true)
    (i : Nat) : TameRes (py_index j i) := by
  intro e he
  cases j with
  | obj kvs => rw [noObjDepth_obj] at h; cases h
  | arr l =>
    simp only [py_index] at he
    cases hg : listGet l i <;> rw [hg] at he <;> simp at he
    right; exact he.symm
  | str s =>
    simp only [py_index] at he
    cases hg : listGet s.toList i <;> rw [hg] at he <;> simp at he
    right; exact he.symm
  | null => simp [py_index] at he; left; exact he.symm
  | bool b => simp [py_index] at he; left; exact he.symm
  | num q => simp [py_index] at he; left; exact he.symm

theorem index_noObj {n : Nat} {j v : Json} (h : noObjDepth (n + 1) j = true)
    {i : Nat} (hv : py_index j i = .ok v) : noObjDepth n v = true := by
  cases j with
  | arr l =>
    simp only [py_index] at hv
    cases hg : listGet l i <;> rw [hg] at hv <;> simp at hv
    subst hv
    simp only [noObjDepth, List.all_eq_true] at h
    exact h _ (listGet_mem hg)
  | str s =>
    simp only [py_index] at hv
    cases hg : listGet s.toList i <;> rw [hg] at hv <;> simp at hv
    subst hv; exact noObjDepth_str n _
  | obj kvs => rw [noObjDepth_obj] at h; cases h
  | null => simp [py_index] at hv
  | bool b => simp [py_index] at hv
  | num q => simp [py_index] at hv

theorem tame_py_iter (j : Json) : TameRes (py_iter j) := by
  intro e he
  cases j <;> simp [py_iter] at he <;> left <;> exact he.symm

theorem iter_noObj {n : Nat} {j : Json} {l : List Json}
    (h : noObjDepth (n + 1) j = true) (hl : py_iter j = .ok l) :
    ∀ x ∈ l, noObjDepth n x = true := by
  cases j with
  | arr items =>
    simp only [py_iter] at hl
    cases hl
    simpa only [noObjDepth, List.all_eq_true] using h
  | str s =>
    simp only [py_iter] at hl
    cases hl
    intro x hx
    obtain ⟨c, _, rfl⟩ := List.mem_map.mp hx
    exact noObjDepth_str n _
  | obj kvs => rw [noObjDepth_obj] at h; cases h
  | null => simp [py_iter] at hl
  | bool b => simp [py_iter] at hl
  | num q => simp [py_iter] at hl

theorem iter_nonempty {j : Json} {l : List Json}
    (ht : py_truthy j = true) (hl : py_iter j = .ok l) : l ≠ [] := by
  cases j with
  | arr items =>
    simp only [py_iter] at hl; cases hl
    simpa [py_truthy, List.isEmpty_iff] using ht
  | str s =>
    simp only [py_iter] at hl; cases hl
    simp only [py_truthy, Bool.not_eq_true'] at ht
    simp only [ne_eq, List.map_eq_nil_iff]
    simpa [List.isEmpty_iff] using ht
  | obj kvs =>
    simp only [py_iter] at hl; cases hl
    simp only [py_truthy, Bool.not_eq_true'] at ht
    simp only [ne_eq, List.map_eq_nil_iff]
    simpa [List.isEmpty_iff] using ht
  | null => simp [py_iter] at hl
  | bool b => simp [py_iter] at hl
  | num q => simp [py_iter] at hl

theorem compIndex_tame {n : Nat} {cs : List Json}
    (h : ∀ c ∈ cs, noObjDepth n c = true) (k : Nat) :
    TameRes (compIndex k cs) := by
  induction cs with
  | nil => intro e he; simp [compIndex] at he
  | cons c rest ih =>
    intro e he
    simp only [compIndex] at he
    cases h0 : py_index c k with
    | error e0 =>
      rw [h0] at he
      simp at he; subst he
      exact tame_py_index (h c (List.mem_cons_self c rest)) k _ h0
    | ok v =>
      rw [h0] at he
      try simp only [] at he
      cases h1 : compIndex k rest with
      | error e1 =>
        rw [h1] at he; simp at he; subst he
        exact ih (fun x hx => h x (List.mem_cons_of_mem c hx)) _ h1
      | ok r => rw [h1] at he; simp at he

theorem compIndex_length {k : Nat} {cs l : List Json}
    (h : compIndex k cs = .ok l) : l.length = cs.length := by
  induction cs generalizing l with
  | nil => simp [compIndex] at h; simp [← h]
  | cons c rest ih =>
    simp only [compIndex] at h
    cases h0 : py_index c k <;> rw [h0] at h <;> try simp at h
    cases h1 : compIndex k rest <;> rw [h1] at h <;> simp at h
    subst h
    simp [ih h1]

theorem py_sumAux_tame (l : List Json) : ∀ a, TameRes (py_sumAux a l) := by
  induction l with
  | nil => intro a e he; simp [py_sumAux] at he
  | cons x xs ih =>
    intro a e he
    simp only [py_sumAux] at he
    cases hx : jsonToNum x with
    | some q => rw [hx] at he; exact ih _ _ he
    | none => rw [hx] at he; simp at he; left; exact he.symm

theorem py_sum_tame (l : List Json) : TameRes (py_sum l) :=
  py_sumAux_tame l 0

theorem meanPair_tame {n : Nat} {cs : List Json}
    (h : ∀ c ∈ cs, noObjDepth n c = true) (hne : cs ≠ []) :
    TameRes (meanPair cs) := by
  intro e he
  simp only [meanPair] at he
  cases h0 : compIndex 0 cs with
  | error e0 =>
    rw [h0] at he; simp at he; subst he; exact compIndex_tame h 0 _ h0
  | ok lons =>
    rw [h0] at he
    cases h1 : compIndex 1 cs with
    | error e1 =>
      rw [h1] at he; simp at he; subst he; exact compIndex_tame h 1 _ h1
    | ok lats =>
      rw [h1] at he
      try simp only [] at he
      have hlen0 : lons.length = cs.length := compIndex_length h0
      have hlen1 : lats.length = cs.length := compIndex_length h1
      have hnz : cs.length ≠ 0 := by simpa using hne
      cases h2 : py_sum lons with
      | error e2 =>
        rw [h2] at he; simp at he; subst he; exact py_sum_tame lons _ h2
      | ok sl =>
        rw [h2] at he
        try simp only [] at he
        rw [show py_div sl lons.length = .ok (sl / (lons.length : ℚ))
            from by simp [py_div, hlen0, hnz]] at he
        try simp only [] at he
        cases h3 : py_sum lats with
        | error e3 =>
          rw [h3] at he; simp at he; subst he; exact py_sum_tame lats _ h3
        | ok st =>
          rw [h3] at he
          try simp only [] at he
          rw [show py_div st lats.length = .ok (st / (lats.length : ℚ))
              from by simp [py_div, hlen1, hnz]] at he
          simp at he

theorem compFlat_tame (ls : List Json) : TameRes (compFlat ls) := by
  induction ls with
  | nil => intro e he; simp [compFlat] at he
  | cons l rest ih =>
    intro e he
    simp only [compFlat] at he
    cases h0 : py_iter l with
    | error e0 =>
      rw [h0] at he; simp at he; subst he; exact tame_py_iter l _ h0
    | ok cs =>
      rw [h0] at he
      try simp only [] at he
      cases h1 : compFlat rest with
      | error e1 => rw [h1] at he; simp at he; subst he; exact ih _ h1
      | ok r => rw [h1] at he; simp at he

theorem compFlat_noObj {n : Nat} {ls r : List Json}
    (h : ∀ l ∈ ls, noObjDepth (n + 1) l = true)
    (hr : compFlat ls = .ok r) : ∀ x ∈ r, noObjDepth n x = true := by
  induction ls generalizing r with
  | nil =>
    simp [compFlat] at hr
    subst hr
    intro x hx
    cases hx
  | cons l rest ih =>
    simp only [compFlat] at hr
    cases h0 : py_iter l <;> rw [h0] at hr <;> try simp at hr
    cases h1 : compFlat rest <;> rw [h1] at hr <;> simp at hr
    subst hr
    intro x hx
    rcases List.mem_append.mp hx with hx | hx
    · exact iter_noObj (h l (List.mem_cons_self l rest)) h0 x hx
    · exact ih (fun y hy => h y (List.mem_cons_of_mem l hy)) h1 x hx

theorem compFlat2_tame (ps : List Json) : TameRes (compFlat2 ps) := by
  induction ps with
  | nil => intro e he; simp [compFlat2] at he
  | cons p rest ih =>
    intro e he
    simp only [compFlat2] at he
    cases h0 : py_iter p with
    | error e0 =>
      rw [h0] at he; simp at he; subst he; exact tame_py_iter p _ h0
    | ok rs =>
      rw [h0] at he
      try simp only [] at he
      cases h1 : compFlat rs with
      | error e1 =>
        rw [h1] at he; simp at he; subst he; exact compFlat_tame rs _ h1
      | ok cs =>
        rw [h1] at he
        try simp only [] at he
        cases h2 : compFlat2 rest with
        | error e2 => rw [h2] at he; simp at he; subst he; exact ih _ h2
        | ok r => rw [h2] at he; simp at he

theorem compFlat2_noObj {n : Nat} {ps r : List Json}
    (h : ∀ p ∈ ps, noObjDepth (n + 2) p = true)
    (hr : compFlat2 ps = .ok r) : ∀ x ∈ r, noObjDepth n x = true := by
  induction ps generalizing r with
  | nil =>
    simp [compFlat2] at hr
    subst hr
    intro x hx
    cases hx
  | cons p rest ih =>
    simp only [compFlat2] at hr
    cases h0 : py_iter p <;> rw [h0] at hr <;> try simp at hr
    cases h1 : compFlat _ <;> rw [h1] at hr <;> try simp at hr
    cases h2 : compFlat2 rest <;> rw [h2] at hr <;> simp at hr
    subst hr
    intro x hx
    rcases List.mem_append.mp hx with hx | hx
    · exact compFlat_noObj
        (iter_noObj (h p (List.mem_cons_self p rest)) h0) h1 x hx
    · exact ih (fun y hy => h y (List.mem_cons_of_mem p hy)) h2 x hx

theorem centroid_try_tame {t coords : Json} (hc : py_truthy coords = true)
    (h4 : noObjDepth 4 coords = true) : TameRes (centroid_try t coords) := by
  intro e he
  unfold centroid_try at he
  split at he
  · -- Point
    cases h0 : py_index coords 0 with
    | error e0 =>
      rw [h0] at he; simp at he; subst he; exact tame_py_index h4 0 _ h0
    | ok a =>
      rw [h0] at he
      try simp only [] at he
      cases h1 : py_index coords 1 with
      | error e1 =>
        rw [h1] at he; simp at he; subst he; exact tame_py_index h4 1 _ h1
      | ok b => rw [h1] at he; simp at he
  · split at he
    · -- LineString
      cases h0 : py_iter coords with
      | error e0 =>
        rw [h0] at he; simp at he; subst he; exact tame_py_iter coords _ h0
      | ok cs =>
        rw [h0] at he
        try simp only [] at he
        cases h1 : meanPair cs with
        | error e1 =>
          rw [h1] at he; simp at he; subst he
          exact meanPair_tame (iter_noObj h4 h0) (iter_nonempty hc h0) _ h1
        | ok v => rw [h1] at he; simp at he
    · split at he
      · -- Polygon, the `coords` truthiness test inside the branch is split
        -- by `split`; first the truthy case
        cases h0 : py_index coords 0 with
        | error e0 =>
          rw [h0] at he; simp at he; subst he
          exact tame_py_index h4 0 _ h0
        | ok ring =>
          rw [h0] at he
          try simp only [] at he
          by_cases hring : py_truthy ring = true
          · rw [hring] at he
            simp only [if_true, reduceIte] at he
            cases h1 : py_iter ring with
            | error e1 =>
              rw [h1] at he; simp at he; subst he
              exact tame_py_iter ring _ h1
            | ok cs =>
              rw [h1] at he
              try simp only [] at he
              cases h2 : meanPair cs with
              | error e2 =>
                rw [h2] at he; simp at he; subst he
                exact meanPair_tame (iter_noObj (index_noObj h4 h0) h1)
                  (iter_nonempty hring h1) _ h2
              | ok v => rw [h2] at he; simp at he
          · rw [Bool.not_eq_true] at hring
            rw [hring] at he
            simp at he
      · split at he
        · -- MultiLineString
          cases h0 : py_iter coords with
          | error e0 =>
            rw [h0] at he; simp at he; subst he
            exact tame_py_iter coords _ h0
          | ok lines =>
            rw [h0] at he
            try simp only [] at he
            cases h1 : compFlat lines with
            | error e1 =>
              rw [h1] at he; simp at he; subst he
              exact compFlat_tame lines _ h1
            | ok allc =>
              rw [h1] at he
              try simp only [] at he
              by_cases hemp : allc.isEmpty = true
              · rw [hemp] at he; simp at he
              · rw [Bool.not_eq_true] at hemp
                rw [hemp] at he
                simp only [Bool.false_eq_true, if_false] at he
                cases h2 : meanPair allc with
                | error e2 =>
                  rw [h2] at he; simp at he; subst he
                  exact meanPair_tame
                    (compFlat_noObj (iter_noObj h4 h0) h1)
                    (by simpa [List.isEmpty_iff] using hemp) _ h2
                | ok v => rw [h2] at he; simp at he
        · split at he
          · -- MultiPolygon
            cases h0 : py_iter coords with
            | error e0 =>
              rw [h0] at he; simp at he; subst he
              exact tame_py_iter coords _ h0
            | ok polys =>
              rw [h0] at he
              try simp only [] at he
              cases h1 : compFlat2 polys with
              | error e1 =>
                rw [h1] at he; simp at he; subst he
                exact compFlat2_tame polys _ h1
              | ok allc =>
                rw [h1] at he
                try simp only [] at he
                by_cases hemp : allc.isEmpty = true
                · rw [hemp] at he; simp at he
                · rw [Bool.not_eq_true] at hemp
                  rw [hemp] at he
                  simp only [Bool.false_eq_true, if_false] at he
                  cases h2 : meanPair allc with
                  | error e2 =>
                    rw [h2] at he; simp at he; subst he
                    exact meanPair_tame
                      (compFlat2_noObj (iter_noObj h4 h0) h1)
                      (by simpa [List.isEmpty_iff] using hemp) _ h2
                  | ok v => rw [h2] at he; simp at he
          · split at he
            · -- MultiPoint
              cases h0 : py_iter coords with
              | error e0 =>
                rw [h0] at he; simp at he; subst he
                exact tame_py_iter coords _ h0
              | ok cs =>
                rw [h0] at he
                try simp only [] at he
                cases h1 : meanPair cs with
                | error e1 =>
                  rw [h1] at he; simp at he; subst he
                  exact meanPair_tame (iter_noObj h4 h0)
                    (iter_nonempty hc h0) _ h1
                | ok v => rw [h1] at he; simp at he
            · -- unknown tag: fall-through
              simp at he

/-- Inputs on which `get_centroid` provably cannot raise: falsy geometry,
or a dict whose coordinates payload contains no nested dict down to the
depth the computation subscripts. -/
def CentroidSafe (g : Json) : Prop :=
  py_truthy g = false ∨
    ∃ kvs, g = .obj kvs ∧
      noObjDepth 4 ((objLookup kvs "coordinates").getD (.arr [])) = true

theorem get_centroid_total {g : Json} (h : CentroidSafe g) :
    ∃ v, get_centroid g = .ok v := by
  rcases h with hf | ⟨kvs, rfl, h4⟩
  · refine ⟨(.null, .null), ?_⟩
    unfold get_centroid
    rw [hf]
    rfl
  · unfold get_centroid
    by_cases ht : py_truthy (.obj kvs) = true
    · rw [ht, if_pos rfl]
      rw [show py_get (.obj kvs) "type" (.str "")
          = .ok ((objLookup kvs "type").getD (.str "")) from rfl]
      try simp only [] 
      rw [show py_get (.obj kvs) "coordinates" (.arr [])
          = .ok ((objLookup kvs "coordinates").getD (.arr [])) from rfl]
      try simp only []
      by_cases hc :
          py_truthy ((objLookup kvs "coordinates").getD (.arr [])) = true
      · rw [hc, if_pos rfl]
        have htame := centroid_try_tame
          (t := (objLookup kvs "type").getD (.str "")) hc h4
        cases hct : centroid_try ((objLookup kvs "type").getD (.str ""))
            ((objLookup kvs "coordinates").getD (.arr [])) with
        | ok v =>
          cases v with
          | some w => exact ⟨w, rfl⟩
          | none => exact ⟨(.null, .null), rfl⟩
        | error e =>
          rcases htame e hct with rfl | rfl
          · exact ⟨(.null, .null), rfl⟩
          · exact ⟨(.null, .null), rfl⟩
      · rw [Bool.not_eq_true] at hc
        rw [hc]
        exact ⟨(.null, .null), rfl⟩
    · rw [Bool.not_eq_true] at ht
      rw [ht]
      exact ⟨(.null, .null), rfl⟩

/-- C6 counterexample: `get_centroid` is not total on every input — the
truthy non-dict input `5` raises `AttributeError` (from `geometry.get`,
evaluated before the `try` block), which the
`except (IndexError, TypeError)` clause does not catch, so the claim that
any shape mismatch degrades to `(null, null)` fails at this input. -/
theorem get_centroid_not_total :
    get_centroid (.num 5) = .error .attributeError := rfl

/-- C6 (amended): `get_centroid` is total on every falsy input and on
every dict input with no dict nested in its coordinates payload to the
inspected depth; shape mismatches there raise only the caught
`IndexError`/`TypeError` kinds. -/
theorem get_centroid_total_amended (g : Json) (h : CentroidSafe g) :
    ∃ v, get_centroid g = .ok v :=
  get_centroid_total h

/-- Witness for the amended C6: a Point whose coordinates array has only
one entry (an in-`try` IndexError, degraded to `(null, null)`). -/
theorem get_centroid_total_amended_witness :
    ∃ v, get_centroid
      (.obj [("type", .str "Point"), ("coordinates", .arr [.num 1])])
      = .ok v :=
  get_centroid_total_amended _
    (Or.inr ⟨[("type", .str "Point"), ("coordinates", .arr [.num 1])],
      rfl, rfl⟩)

/-!
## Claims about the geometry translator
-/

theorem objLookup_truthy {kvs : List (String × Json)} {key : String}
    {v : Json} (h : objLookup kvs key = some v) :
    py_truthy (.obj kvs) = true := by
  cases kvs with
  | nil => simp [objLookup] at h
  | cons a rest => rfl

theorem objLookup_contains {kvs : List (String × Json)} {key : String}
    {v : Json} (h : objLookup kvs key = some v) :
    py_contains (.obj kvs) key = .ok true := by
  simp [py_contains, objLookup_any, h]

theorem objLookup_contains_none {kvs : List (String × Json)} {key : String}
    (h : objLookup kvs key = none) :
    py_contains (.obj kvs) key = .ok false := by
  simp [py_contains, objLookup_any, h]

theorem objLookup_getitem {kvs : List (String × Json)} {key : String}
    {v : Json} (h : objLookup kvs key = some v) :
    py_getitem_str (.obj kvs) key = .ok v := by
  simp [py_getitem_str, h]

/-- C1: the translator maps each vendor tag to its standard form — Point
with x/y to `{type: Point, coordinates: [x, y]}` in that order; a Polyline
with exactly one path to LineString carrying that path, with two or more
paths to MultiLineString of all paths; a Polygon with exactly one ring to
Polygon, with two or more rings to MultiPolygon whose members are
independent single-ring polygons; a Multipoint to MultiPoint with the
point list passed through unchanged. -/
theorem esri_translate_cases :
    (∀ (kvs : List (String × Json)) (x y : ℚ),
      objLookup kvs "x" = some (.num x) →
      objLookup kvs "y" = some (.num y) →
      esri_to_geojson_geometry (.obj kvs) "esriGeometryPoint" =
        .ok (.obj [("type", .str "Point"),
                   ("coordinates", .arr [.num x, .num y])])) ∧
    (∀ (kvs : List (String × Json)) (p : Json),
      objLookup kvs "paths" = some (.arr [p]) →
      esri_to_geojson_geometry (.obj kvs) "esriGeometryPolyline" =
        .ok (.obj [("type", .str "LineString"), ("coordinates", p)])) ∧
    (∀ (kvs : List (String × Json)) (ps : List Json),
      objLookup kvs "paths" = some (.arr ps) → 2 ≤ ps.length →
      esri_to_geojson_geometry (.obj kvs) "esriGeometryPolyline" =
        .ok (.obj [("type", .str "MultiLineString"),
                   ("coordinates", .arr ps)])) ∧
    (∀ (kvs : List (String × Json)) (r : Json),
      objLookup kvs "rings" = some (.arr [r]) →
      esri_to_geojson_geometry (.obj kvs) "esriGeometryPolygon" =
        .ok (.obj [("type", .str "Polygon"), ("coordinates", .arr [r])])) ∧
    (∀ (kvs : List (String × Json)) (rs : List Json),
      objLookup kvs "rings" = some (.arr rs) → 2 ≤ rs.length →
      esri_to_geojson_geometry (.obj kvs) "esriGeometryPolygon" =
        .ok (.obj [("type", .str "MultiPolygon"),
                   ("coordinates", .arr (rs.map (fun r => Json.arr [r])))])) ∧
    (∀ (kvs : List (String × Json)) (pts : List Json),
      objLookup kvs "points" = some (.arr pts) →
      esri_to_geojson_geometry (.obj kvs) "esriGeometryMultipoint" =
        .ok (.obj [("type", .str "MultiPoint"),
                   ("coordinates", .arr pts)])) := by
  refine ⟨?_, ?_, ?_, ?_, ?_, ?_⟩
  · intro kvs x y hx hy
    unfold esri_to_geojson_geometry
    rw [objLookup_truthy hx, if_pos rfl, if_pos rfl,
      objLookup_contains hx]
    try simp only []
    rw [objLookup_contains hy]
    try simp only []
    rw [objLookup_getitem hx]
    try simp only []
    rw [objLookup_getitem hy]
  · intro kvs p hp
    unfold esri_to_geojson_geometry
    rw [objLookup_truthy hp, if_pos rfl]
    rw [if_neg (by decide), if_pos rfl, objLookup_contains hp]
    try simp only []
    rw [objLookup_getitem hp]
    try simp only []
    rw [show py_len (.arr [p]) = .ok 1 from rfl]
    try simp only []
    simp [py_index, listGet]
  · intro kvs ps hp hn
    unfold esri_to_geojson_geometry
    rw [objLookup_truthy hp, if_pos rfl]
    rw [if_neg (by decide), if_pos rfl, objLookup_contains hp]
    try simp only []
    rw [objLookup_getitem hp]
    try simp only []
    rw [show py_len (.arr ps) = .ok ps.length from rfl]
    try simp only []
    rw [if_neg (by omega)]
  · intro kvs r hr
    unfold esri_to_geojson_geometry
    rw [objLookup_truthy hr, if_pos rfl]
    rw [if_neg (by decide), if_neg (by decide), if_pos rfl,
      objLookup_contains hr]
    try simp only []
    rw [objLookup_getitem hr]
    try simp only []
    rw [show py_len (.arr [r]) = .ok 1 from rfl]
    try simp only []
    simp
  · intro kvs rs hr hn
    unfold esri_to_geojson_geometry
    rw [objLookup_truthy hr, if_pos rfl]
    rw [if_neg (by decide), if_neg (by decide), if_pos rfl,
      objLookup_contains hr]
    try simp only []
    rw [objLookup_getitem hr]
    try simp only []
    rw [show py_len (.arr rs) = .ok rs.length from rfl]
    try simp only []
    rw [if_neg (by omega)]
    simp [py_iter]
  · intro kvs pts hp
    unfold esri_to_geojson_geometry
    rw [objLookup_truthy hp, if_pos rfl]
    rw [if_neg (by decide), if_neg (by decide), if_neg (by decide),
      if_pos rfl, objLookup_contains hp]
    try simp only []
    rw [objLookup_getitem hp]

/-- Witness for C1: the spec's Scenario 1 Point and Scenario 2 two-ring
Polygon, at concrete field lists. -/
theorem esri_translate_cases_witness :
    esri_to_geojson_geometry
        (.obj [("x", .num 1), ("y", .num 2)]) "esriGeometryPoint" =
      .ok (.obj [("type", .str "Point"),
                 ("coordinates", .arr [.num 1, .num 2])]) ∧
    esri_to_geojson_geometry
        (.obj [("rings", .arr [.arr [.num 0], .arr [.num 1]])])
        "esriGeometryPolygon" =
      .ok (.obj [("type", .str "MultiPolygon"),
                 ("coordinates",
                  .arr [.arr [.arr [.num 0]], .arr [.arr [.num 1]]])]) :=
  ⟨esri_translate_cases.1 [("x", .num 1), ("y", .num 2)] 1 2 rfl rfl,
   esri_translate_cases.2.2.2.2.1
     [("rings", .arr [.arr [.num 0], .arr [.num 1]])]
     [.arr [.num 0], .arr [.num 1]] rfl (by decide)⟩

/-- C2 counterexample: the translator is not total on every input — a
Polyline tag with a present but non-list `paths` payload raises a
`TypeError` from `len(esri_geom["paths"])` instead of returning null. -/
theorem esri_translate_not_total :
    esri_to_geojson_geometry (.obj [("paths", .num 5)])
      "esriGeometryPolyline" = .error .typeError := rfl

/-- Inputs on which the translator provably cannot raise: falsy geometry,
or a dict whose `paths`/`rings` fields, when present, are lists. -/
def EsriSafe (g : Json) : Prop :=
  py_truthy g = false ∨
    ∃ kvs, g = .obj kvs ∧
      (∀ v, objLookup kvs "paths" = some v → ∃ l, v = .arr l) ∧
      (∀ v, objLookup kvs "rings" = some v → ∃ l, v = .arr l)

/-- C2 (amended): on every falsy input, every unrecognized tag, and every
missing-required-field mismatch the translator returns null and does not
raise; and it is total on all inputs whose `paths`/`rings` payloads, when
present, are lists.  (The unrestricted claim fails: see the
counterexample with `paths: 5`.) -/
theorem esri_translate_total_amended (g : Json) (tag : String)
    (hs : EsriSafe g) :
    (∃ v, esri_to_geojson_geometry g tag = .ok v) ∧
    (py_truthy g = false → esri_to_geojson_geometry g tag = .ok .null) ∧
    (tag ≠ "esriGeometryPoint" → tag ≠ "esriGeometryPolyline" →
     tag ≠ "esriGeometryPolygon" → tag ≠ "esriGeometryMultipoint" →
     esri_to_geojson_geometry g tag = .ok .null) ∧
    (∀ kvs, g = .obj kvs →
     objLookup kvs "x" = none ∨ objLookup kvs "y" = none →
     esri_to_geojson_geometry g "esriGeometryPoint" = .ok .null) ∧
    (∀ kvs, g = .obj kvs → objLookup kvs "paths" = none →
     esri_to_geojson_geometry g "esriGeometryPolyline" = .ok .null) ∧
    (∀ kvs, g = .obj kvs → objLookup kvs "rings" = none →
     esri_to_geojson_geometry g "esriGeometryPolygon" = .ok .null) ∧
    (∀ kvs, g = .obj kvs → objLookup kvs "points" = none →
     esri_to_geojson_geometry g "esriGeometryMultipoint" = .ok .null) := by
  have hnull : ∀ (g' : Json) (t : String), py_truthy g' = false →
      esri_to_geojson_geometry g' t = .ok .null := by
    intro g' t hf
    unfold esri_to_geojson_geometry
    rw [hf]
    rfl
  have hunk : ∀ (g' : Json) (t : String),
      t ≠ "esriGeometryPoint" → t ≠ "esriGeometryPolyline" →
      t ≠ "esriGeometryPolygon" → t ≠ "esriGeometryMultipoint" →
      esri_to_geojson_geometry g' t = .ok .null := by
    intro g' t h1 h2 h3 h4
    by_cases ht : py_truthy g' = true
    · unfold esri_to_geojson_geometry
      rw [ht, if_pos rfl, if_neg h1, if_neg h2, if_neg h3, if_neg h4]
    · rw [Bool.not_eq_true] at ht
      exact hnull g' t ht
  have hmissPoint : ∀ kvs,
      objLookup kvs "x" = none ∨ objLookup kvs "y" = none →
      esri_to_geojson_geometry (.obj kvs) "esriGeometryPoint" =
        .ok .null := by
    intro kvs hmiss
    by_cases ht : py_truthy (.obj kvs) = true
    · unfold esri_to_geojson_geometry
      rw [ht, if_pos rfl, if_pos rfl]
      rcases hmiss with hx | hy
      · rw [objLookup_contains_none hx]
      · cases hx : objLookup kvs "x" with
        | none => rw [objLookup_contains_none hx]
        | some vx =>
          rw [objLookup_contains hx]
          try simp only []
          rw [objLookup_contains_none hy]
    · rw [Bool.not_eq_true] at ht
      exact hnull _ _ ht
  have hmissPaths : ∀ kvs, objLookup kvs "paths" = none →
      esri_to_geojson_geometry (.obj kvs) "esriGeometryPolyline" =
        .ok .null := by
    intro kvs hmiss
    by_cases ht : py_truthy (.obj kvs) = true
    · unfold esri_to_geojson_geometry
      rw [ht, if_pos rfl, if_neg (by decide), if_pos rfl,
        objLookup_contains_none hmiss]
    · rw [Bool.not_eq_true] at ht
      exact hnull _ _ ht
  have hmissRings : ∀ kvs, objLookup kvs "rings" = none →
      esri_to_geojson_geometry (.obj kvs) "esriGeometryPolygon" =
        .ok .null := by
    intro kvs hmiss
    by_cases ht : py_truthy (.obj kvs) = true
    · unfold esri_to_geojson_geometry
      rw [ht, if_pos rfl, if_neg (by decide), if_neg (by decide),
        if_pos rfl, objLookup_contains_none hmiss]
    · rw [Bool.not_eq_true] at ht
      exact hnull _ _ ht
  have hmissPts : ∀ kvs, objLookup kvs "points" = none →
      esri_to_geojson_geometry (.obj kvs) "esriGeometryMultipoint" =
        .ok .null := by
    intro kvs hmiss
    by_cases ht : py_truthy (.obj kvs) = true
    · unfold esri_to_geojson_geometry
      rw [ht, if_pos rfl, if_neg (by decide), if_neg (by decide),
        if_neg (by decide), if_pos rfl, objLookup_contains_none hmiss]
    · rw [Bool.not_eq_true] at ht
      exact hnull _ _ ht
  have htotal : ∃ v, esri_to_geojson_geometry g tag = .ok v := by
    rcases hs with hf | ⟨kvs, rfl, hpaths, hrings⟩
    · exact ⟨.null, hnull g tag hf⟩
    · by_cases ht : py_truthy (.obj kvs) = true
      · by_cases t1 : tag = "esriGeometryPoint"
        · subst t1
          cases hx : objLookup kvs "x" with
          | none => exact ⟨.null, hmissPoint kvs (Or.inl hx)⟩
          | some vx =>
            cases hy : objLookup kvs "y" with
            | none => exact ⟨.null, hmissPoint kvs (Or.inr hy)⟩
            | some vy =>
              refine ⟨.obj [("type", .str "Point"),
                ("coordinates", .arr [vx, vy])], ?_⟩
              unfold esri_to_geojson_geometry
              rw [ht, if_pos rfl, if_pos rfl, objLookup_contains hx]
              try simp only []
              rw [objLookup_contains hy]
              try simp only []
              rw [objLookup_getitem hx]
              try simp only []
              rw [objLookup_getitem hy]
        · by_cases t2 : tag = "esriGeometryPolyline"
          · subst t2
            cases hp : objLookup kvs "paths" with
            | none => exact ⟨.null, hmissPaths kvs hp⟩
            | some v =>
              obtain ⟨l, rfl⟩ := hpaths v hp
              unfold esri_to_geojson_geometry
              rw [ht, if_pos rfl, if_neg (by decide), if_pos rfl,
                objLookup_contains hp]
              try simp only []
              rw [objLookup_getitem hp]
              try simp only []
              rw [show py_len (.arr l) = .ok l.length from rfl]
              try simp only []
              by_cases hl : l.length = 1
              · obtain ⟨a, rfl⟩ := List.length_eq_one.mp hl
                exact ⟨.obj [("type", .str "LineString"),
                  ("coordinates", a)], by simp [py_index, listGet]⟩
              · rw [if_neg hl]
                exact ⟨_, rfl⟩
          · by_cases t3 : tag = "esriGeometryPolygon"
            · subst t3
              cases hr : objLookup kvs "rings" with
              | none => exact ⟨.null, hmissRings kvs hr⟩
              | some v =>
                obtain ⟨l, rfl⟩ := hrings v hr
                unfold esri_to_geojson_geometry
                rw [ht, if_pos rfl, if_neg (by decide),
                  if_neg (by decide), if_pos rfl, objLookup_contains hr]
                try simp only []
                rw [objLookup_getitem hr]
                try simp only []
                rw [show py_len (.arr l) = .ok l.length from rfl]
                try simp only []
                by_cases hl : l.length = 1
                · rw [if_pos hl]
                  exact ⟨_, rfl⟩
                · rw [if_neg hl]
                  exact ⟨.obj [("type", .str "MultiPolygon"),
                    ("coordinates",
                     .arr (l.map (fun r => Json.arr [r])))],
                    by simp [py_iter]⟩
            · by_cases t4 : tag = "esriGeometryMultipoint"
              · subst t4
                cases hp : objLookup kvs "points" with
                | none => exact ⟨.null, hmissPts kvs hp⟩
                | some v =>
                  unfold esri_to_geojson_geometry
                  rw [ht, if_pos rfl, if_neg (by decide),
                    if_neg (by decide), if_neg (by decide), if_pos rfl,
                    objLookup_contains hp]
                  try simp only []
                  rw [objLookup_getitem hp]
                  exact ⟨_, rfl⟩
              · exact ⟨.null, hunk _ _ t1 t2 t3 t4⟩
      · rw [Bool.not_eq_true] at ht
        exact ⟨.null, hnull _ _ ht⟩
  exact ⟨htotal, fun hf => hnull g tag hf,
    fun h1 h2 h3 h4 => hunk g tag h1 h2 h3 h4,
    fun kvs hg => hg ▸ hmissPoint kvs,
    fun kvs hg => hg ▸ hmissPaths kvs,
    fun kvs hg => hg ▸ hmissRings kvs,
    fun kvs hg => hg ▸ hmissPts kvs⟩

/-- Witness for the amended C2: an unrecognized tag on a truthy dict
returns null. -/
theorem esri_translate_total_amended_witness :
    esri_to_geojson_geometry (.obj [("x", .num 1)]) "esriGeometryEnvelope"
      = .ok .null :=
  (esri_translate_total_amended (.obj [("x", .num 1)])
    "esriGeometryEnvelope"
    (Or.inr ⟨[("x", .num 1)], rfl,
      fun v hv => by simp [objLookup] at hv,
      fun v hv => by simp [objLookup] at hv⟩)).2.2.1
    (by decide) (by decide) (by decide) (by decide)

/-!
## Claims about the paginated fetcher
-/

/-- A compliant endpoint holding exactly `total` features: each request at
`offset` is served with the next `min 1000 (total - offset)` features (the
page size is the source's 1000), plus a geometry-type tag. -/
def exactServe (total offset : Nat) : Except Unit Json :=
  .ok (.obj [("geometryType", .str "esriGeometryPoint"),
             ("features", .arr (List.replicate (min 1000 (total - offset))
               .null))])

/-- The features a response at `offset` contributes on the success path of
one loop iteration (empty on any failing or breaking path). -/
def pageFeats (endpoint : Nat → Except Unit Json) (offset : Nat) :
    List Json :=
  match endpoint offset with
  | .error _ => []
  | .ok data =>
    match py_contains data "error" with
    | .error _ => []
    | .ok true => []
    | .ok false =>
      match py_get data "features" (.arr []) with
      | .error _ => []
      | .ok fj =>
        match py_iter fj with
        | .error _ => []
        | .ok feats => feats

/-- A successful page response carrying exactly the list `l`. -/
def okPage (l : List Json) : Json := .obj [("features", .arr l)]

theorem exactServe_contains (l : List Json) :
    py_contains (.obj [("geometryType", .str "esriGeometryPoint"),
      ("features", .arr l)]) "error" = .ok false := rfl

theorem exactServe_features (l : List Json) :
    py_get (.obj [("geometryType", .str "esriGeometryPoint"),
      ("features", .arr l)]) "features" (.arr []) = .ok (.arr l) := rfl

theorem replicate_isEmpty_false {m : Nat} (hm : m ≠ 0) :
    (List.replicate m Json.null).isEmpty = false := by
  obtain ⟨m', rfl⟩ := Nat.exists_eq_succ_of_ne_zero hm
  rfl

/-- On the compliant `exactServe total` endpoint with ceiling `total`, the
loop issues exactly `⌈remaining / 1000⌉` further requests from offset
`1000 * k`. -/
theorem exactServe_loop (total : Nat) :
    ∀ d k (acc : List Json) last reqs pages, total - 1000 * k = d →
      acc.length = 1000 * k → 1000 * k < total →
      (query_loop (exactServe total) total (1000 * k) acc last reqs
        pages).requests = reqs + (d + 999) / 1000 := by
  intro d
  induction d using Nat.strong_induction_on with
  | _ d ih =>
    intro k acc last reqs pages hd hacc hlt
    have hm : min 1000 (total - 1000 * k) ≠ 0 := by omega
    rw [query_loop]
    simp only [exactServe, exactServe_contains, exactServe_features,
      py_iter, py_truthy, replicate_isEmpty_false hm, Bool.not_false,
      if_true, List.length_append, List.length_replicate, hacc,
      reduceIte]
    by_cases hrem : total - 1000 * k ≤ 1000
    · rw [dif_pos (by omega)]
      have : (total - 1000 * k + 999) / 1000 = 1 := by omega
      simp [hd] at this ⊢
      omega
    · rw [dif_neg (by omega)]
      have hmin : min 1000 (total - 1000 * k) = 1000 := by omega
      rw [hmin, show 1000 * k + 1000 = 1000 * (k + 1) from by ring]
      have h2 := ih (d - 1000) (by omega) (k + 1)
        (acc ++ List.replicate 1000 Json.null)
        (some (.obj [("geometryType", .str "esriGeometryPoint"),
          ("features", .arr (List.replicate 1000 .null))]))
        (reqs + 1)
        (pages ++ [.obj [("geometryType", .str "esriGeometryPoint"),
          ("features", .arr (List.replicate 1000 .null))]])
        (by omega)
        (by simp only [List.length_append, List.length_replicate]; omega)
        (by omega)
      rw [h2]
      omega

/-- If every page carries at most 1000 features (the requested page size),
the accumulator never exceeds `max_records + 999` features. -/
theorem query_loop_len_bound (endpoint : Nat → Except Unit Json)
    (max_records : Nat)
    (hpg : ∀ off, (pageFeats endpoint off).length ≤ 1000) :
    ∀ d offset (acc : List Json) last reqs pages,
      max_records - acc.length = d → acc.length < max_records →
      (query_loop endpoint max_records offset acc last reqs
        pages).features.length ≤ max_records + 999 := by
  intro d
  induction d using Nat.strong_induction_on with
  | _ d ih =>
    intro offset acc last reqs pages hd hlt
    rw [query_loop]
    cases he : endpoint offset with
    | error u => simp; omega
    | ok data =>
      try simp only []
      cases hc : py_contains data "error" with
      | error e => simp; omega
      | ok b =>
        try simp only []
        cases b with
        | true => simp; omega
        | false =>
          try simp only []
          cases hg : py_get data "features" (.arr []) with
          | error e => simp; omega
          | ok fj =>
            try simp only []
            by_cases htr : py_truthy fj = true
            · rw [htr, if_pos rfl]
              cases hi : py_iter fj with
              | error e => simp; omega
              | ok feats =>
                try simp only []
                have hflen : feats.length ≤ 1000 := by
                  have hp := hpg offset
                  simp only [pageFeats, he, hc, hg, hi] at hp
                  exact hp
                by_cases hcond : feats.length < 1000 ∨
                    max_records ≤ (acc ++ feats).length
                · rw [dif_pos hcond]
                  simp only [List.length_append]
                  omega
                · rw [dif_neg hcond]
                  push_neg at hcond
                  obtain ⟨h1, h2⟩ := hcond
                  rw [List.length_append] at h2
                  exact ih (max_records - (acc ++ feats).length)
                    (by simp only [List.length_append]; omega)
                    (offset + 1000) (acc ++ feats) (some data) (reqs + 1)
                    (pages ++ [data]) rfl
                    (by simp only [List.length_append]; omega)
            · rw [Bool.not_eq_true] at htr
              rw [htr]
              simp
              omega

/-- C3: against an endpoint holding exactly `maxRecords` features served in
pages of `min(1000, remaining)`, the loop terminates (it is a total
function) after issuing exactly `⌈maxRecords / 1000⌉` requests; and for any
endpoint whose pages carry at most the requested 1000 features, the
accumulated feature count never exceeds `maxRecords + 1000 - 1`. -/
theorem pagination_termination :
    (∀ total, 1 ≤ total →
      (query_loop (exactServe total) total 0 [] none 0 []).requests =
        (total + 999) / 1000) ∧
    (∀ (endpoint : Nat → Except Unit Json) (max_records : Nat),
      1 ≤ max_records →
      (∀ off, (pageFeats endpoint off).length ≤ 1000) →
      (query_loop endpoint max_records 0 [] none 0 []).features.length ≤
        max_records + 999) := by
  constructor
  · intro total h1
    have h := exactServe_loop total total 0 [] none 0 []
      (by omega) (by simp) (by omega)
    simpa using h
  · intro endpoint max_records h1 hpg
    exact query_loop_len_bound endpoint max_records hpg
      (max_records - 0) 0 [] none 0 [] (by simp) (by simpa using h1)

/-- Witness for C3: 1500 features at page size 1000 take exactly 2
requests, and the accumulator stays within the bound. -/
theorem pagination_termination_witness :
    (query_loop (exactServe 1500) 1500 0 [] none 0 []).requests = 2 ∧
    (query_loop (exactServe 1500) 1500 0 [] none 0 []).features.length ≤
      1500 + 999 := by
  constructor
  · have h := pagination_termination.1 1500 (by norm_num)
    rw [h]
  · exact pagination_termination.2 (exactServe 1500) 1500 (by norm_num)
      (by
        intro off
        simp only [pageFeats, exactServe, exactServe_contains,
          exactServe_features, py_iter, List.length_replicate]
        omega)

theorem okPage_contains (l : List Json) :
    py_contains (okPage l) "error" = .ok false := rfl

theorem okPage_features (l : List Json) :
    py_get (okPage l) "features" (.arr []) = .ok (.arr l) := rfl

theorem range_map_flatten_succ (k : Nat) (fs : Nat → List Json) :
    ((List.range (k + 1)).map fs).flatten =
      fs 0 ++ ((List.range k).map (fun i => fs (i + 1))).flatten := by
  rw [List.range_succ_eq_map]
  simp only [List.map_cons, List.map_map, List.flatten_cons]
  rfl

/-- After `k` full successful pages, a failing page (transport error or
explicit API error payload) stops the loop with exactly the features of
the prior pages, in order, and exactly `k + 1` requests issued. -/
theorem c4_loop :
    ∀ (k : Nat) (fs : Nat → List Json)
      (endpoint : Nat → Except Unit Json) (max_records off : Nat)
      (acc : List Json) (last : Option Json) (reqs : Nat)
      (pages : List Json),
    (∀ i, i < k → endpoint (off + 1000 * i) = .ok (okPage (fs i))) →
    (∀ i, i < k → (fs i).length = 1000) →
    acc.length + 1000 * k < max_records →
    (endpoint (off + 1000 * k) = .error () ∨
      ∃ kvs, endpoint (off + 1000 * k) = .ok (.obj kvs) ∧
        kvs.any (fun kv => decide (kv.1 = "error")) = true) →
    (last = none ∨ ∃ kvs, last = some (.obj kvs)) →
    (query_loop endpoint max_records off acc last reqs pages).features =
        acc ++ ((List.range k).map fs).flatten ∧
      (query_loop endpoint max_records off acc last reqs
        pages).requests = reqs + (k + 1) ∧
      ((query_loop endpoint max_records off acc last reqs pages).last =
          none ∨
        ∃ kvs, (query_loop endpoint max_records off acc last reqs
          pages).last = some (.obj kvs)) := by
  intro k
  induction k with
  | zero =>
    intro fs endpoint max_records off acc last reqs pages h1 h2 h3 hf hl
    rw [query_loop]
    rcases hf with hf | ⟨kvs, hf, herr⟩
    · rw [show endpoint off = .error () from by simpa using hf]
      simpa using hl
    · rw [show endpoint off = .ok (.obj kvs) from by simpa using hf]
      try simp only []
      rw [show py_contains (.obj kvs) "error" = .ok true from by
        simp [py_contains, herr]]
      simp
  | succ k ih =>
    intro fs endpoint max_records off acc last reqs pages h1 h2 h3 hf hl
    have hlen0 : (fs 0).length = 1000 := h2 0 (by omega)
    have hne0 : (fs 0).isEmpty = false := by
      cases hfs : fs 0 with
      | nil => rw [hfs] at hlen0; simp at hlen0
      | cons a l => rfl
    rw [query_loop]
    rw [show endpoint off = .ok (okPage (fs 0)) from by
      simpa using h1 0 (by omega)]
    simp only [okPage_contains, okPage_features, py_iter, py_truthy,
      hne0, Bool.not_false, reduceIte]
    rw [dif_neg (by
      simp only [List.length_append, hlen0]
      omega)]
    have ihr := ih (fun i => fs (i + 1)) endpoint max_records (off + 1000)
      (acc ++ fs 0) (some (okPage (fs 0))) (reqs + 1)
      (pages ++ [okPage (fs 0)])
      (by
        intro i hi
        rw [show off + 1000 + 1000 * i = off + 1000 * (i + 1) from by ring]
        exact h1 (i + 1) (by omega))
      (fun i hi => h2 (i + 1) (by omega))
      (by simp only [List.length_append, hlen0]; omega)
      (by
        rw [show off + 1000 + 1000 * k = off + 1000 * (k + 1) from by
          ring]
        exact hf)
      (Or.inr ⟨[("features", .arr (fs 0))], rfl⟩)
    refine ⟨?_, ?_, ihr.2.2⟩
    · rw [ihr.1, range_map_flatten_succ, List.append_assoc]
    · rw [ihr.2.1]
      omega

/-- When the last decoded response (if any) is a dict, building the result
dict cannot raise, and the features are exactly the loop's accumulator. -/
theorem query_layer_ok (endpoint : Nat → Except Unit Json)
    (max_records : Nat)
    (hl : (query_loop endpoint max_records 0 [] none 0 []).last = none ∨
      ∃ kvs, (query_loop endpoint max_records 0 [] none 0 []).last =
        some (.obj kvs)) :
    ∃ t, query_layer endpoint max_records =
      .ok ⟨(query_loop endpoint max_records 0 [] none 0 []).features,
           t⟩ := by
  unfold query_layer
  rcases hl with hl | ⟨kvs, hl⟩
  · rw [hl]
    exact ⟨.str "", rfl⟩
  · rw [hl]
    try simp only []
    rw [show py_get (.obj kvs) "geometryType" (.str "") =
      .ok ((objLookup kvs "geometryType").getD (.str "")) from rfl]
    try simp only []
    by_cases hfe :
        (query_loop endpoint max_records 0 [] none 0
          []).features.isEmpty = true
    · rw [hfe]
      exact ⟨_, rfl⟩
    · rw [Bool.not_eq_true] at hfe
      rw [hfe]
      try simp only [Bool.not_false, if_true, reduceIte]
      cases hany : objLookup kvs "geometryType" with
      | none =>
        rw [show py_contains (.obj kvs) "geometryType" = .ok false from by
          simp [py_contains, objLookup_any, hany]]
        exact ⟨_, rfl⟩
      | some v =>
        rw [objLookup_contains hany]
        try simp only []
        rw [objLookup_getitem hany]
        exact ⟨v, rfl⟩

/-- C4: when page `k` fails — transport/timeout/decoding error or an
explicit API-level `error` field — after `k` full successful pages, the
loop terminates immediately (exactly `k + 1` requests, no retry) and the
returned result still carries exactly the features of the prior successful
pages, in order. -/
theorem failsoft_partial_results (k : Nat) (fs : Nat → List Json)
    (endpoint : Nat → Except Unit Json) (max_records : Nat)
    (h1 : ∀ i, i < k → endpoint (1000 * i) = .ok (okPage (fs i)))
    (h2 : ∀ i, i < k → (fs i).length = 1000)
    (h3 : 1000 * k < max_records)
    (hf : endpoint (1000 * k) = .error () ∨
      ∃ kvs, endpoint (1000 * k) = .ok (.obj kvs) ∧
        kvs.any (fun kv => decide (kv.1 = "error")) = true) :
    (query_loop endpoint max_records 0 [] none 0 []).requests = k + 1 ∧
    ∃ t, query_layer endpoint max_records =
      .ok ⟨((List.range k).map fs).flatten, t⟩ := by
  have hloop := c4_loop k fs endpoint max_records 0 [] none 0 []
    (by intro i hi; simpa using h1 i hi)
    h2
    (by simpa using h3)
    (by simpa using hf)
    (Or.inl rfl)
  refine ⟨by rw [hloop.2.1]; omega, ?_⟩
  obtain ⟨t, ht⟩ := query_layer_ok endpoint max_records hloop.2.2
  rw [hloop.1] at ht
  exact ⟨t, by simpa using ht⟩

/-- Witness for C4: one full page of 1000 features followed by an API
error payload yields exactly 2 requests and those 1000 features. -/
theorem failsoft_partial_results_witness :
    (query_loop
      (fun off => if off = 0
        then .ok (okPage (List.replicate 1000 .null))
        else .ok (.obj [("error", .str "x")]))
      10000 0 [] none 0 []).requests = 2 ∧
    ∃ t, query_layer
      (fun off => if off = 0
        then .ok (okPage (List.replicate 1000 .null))
        else .ok (.obj [("error", .str "x")]))
      10000 =
      .ok ⟨((List.range 1).map
        (fun _ => List.replicate 1000 Json.null)).flatten, t⟩ :=
  failsoft_partial_results 1 (fun _ => List.replicate 1000 .null)
    (fun off => if off = 0
      then .ok (okPage (List.replicate 1000 .null))
      else .ok (.obj [("error", .str "x")]))
    10000
    (by
      intro i hi
      have : i = 0 := by omega
      subst this
      rfl)
    (by
      intro i hi
      simp only [List.length_replicate])
    (by norm_num)
    (Or.inr ⟨[("error", .str "x")], by norm_num, by decide⟩)

/-- The Python variable `data` always holds the last successfully decoded
response: the loop's `last` equals the last element of its decoded-pages
log. -/
theorem query_loop_last_eq (endpoint : Nat → Except Unit Json)
    (max_records : Nat) :
    ∀ d offset (acc : List Json) (last : Option Json) reqs
      (pages : List Json), max_records - acc.length = d →
      last = pages.getLast? →
      (query_loop endpoint max_records offset acc last reqs pages).last =
        (query_loop endpoint max_records offset acc last reqs
          pages).pages.getLast? := by
  intro d
  induction d using Nat.strong_induction_on with
  | _ d ih =>
    intro offset acc last reqs pages hd hlast
    rw [query_loop]
    cases he : endpoint offset with
    | error u => simpa using hlast
    | ok data =>
      try simp only []
      cases hc : py_contains data "error" with
      | error e => simp [List.getLast?_concat]
      | ok b =>
        try simp only []
        cases b with
        | true => simp [List.getLast?_concat]
        | false =>
          try simp only []
          cases hg : py_get data "features" (.arr []) with
          | error e => simp [List.getLast?_concat]
          | ok fj =>
            try simp only []
            by_cases htr : py_truthy fj = true
            · rw [htr, if_pos rfl]
              cases hi : py_iter fj with
              | error e => simp [List.getLast?_concat]
              | ok feats =>
                try simp only []
                by_cases hcond : feats.length < 1000 ∨
                    max_records ≤ (acc ++ feats).length
                · rw [dif_pos hcond]
                  simp [List.getLast?_concat]
                · rw [dif_neg hcond]
                  push_neg at hcond
                  rw [List.length_append] at hcond
                  exact ih (max_records - (acc ++ feats).length)
                    (by simp only [List.length_append]; omega)
                    (offset + 1000) (acc ++ feats) (some data) (reqs + 1)
                    (pages ++ [data]) rfl
                    (by simp [List.getLast?_concat])
            · rw [Bool.not_eq_true] at htr
              rw [htr]
              simp [List.getLast?_concat]

/-- Modelled from the spec as amended: the output tag is the
`geometryType` of the *last successfully decoded* response (empty string
when absent, or when no response was ever decoded). -/
def lastDecodedTag (pages : List Json) : Json :=
  match pages.getLast? with
  | none => .str ""
  | some (.obj kvs) => (objLookup kvs "geometryType").getD (.str "")
  | some _ => .str ""

/-- Modelled from the spec: "Output geometry-type tag is taken from the
last successful response that carried one" — the `geometryType` value of
the last decoded response containing that key, `none` when no decoded
response carried one. -/
def lastCarriedTag : List Json → Option Json
  | [] => none
  | p :: rest =>
    match lastCarriedTag rest with
    | some v => some v
    | none =>
      match p with
      | .obj kvs => objLookup kvs "geometryType"
      | _ => none

theorem getLast?_mem {α : Type} : ∀ {l : List α} {a : α},
    l.getLast? = some a → a ∈ l := by
  intro l
  induction l with
  | nil => intro a h; simp at h
  | cons x xs ih =>
    intro a h
    cases xs with
    | nil =>
      simp [List.getLast?] at h
      simp [h]
    | cons y ys =>
      rw [List.getLast?_cons_cons] at h
      exact List.mem_cons_of_mem x (ih h)

/-- C8 (amended): whenever every decoded response is a dict, the fetcher's
geometry-type tag is the `geometryType` of the **last decoded** response —
empty when that response lacks the key or no response was decoded — not
the last response that carried one. -/
theorem geometry_tag_last_decoded (endpoint : Nat → Except Unit Json)
    (max_records : Nat)
    (hobj : ∀ p ∈ (query_loop endpoint max_records 0 [] none 0 []).pages,
      ∃ kvs, p = .obj kvs) :
    query_layer endpoint max_records =
      .ok ⟨(query_loop endpoint max_records 0 [] none 0 []).features,
        lastDecodedTag
          (query_loop endpoint max_records 0 [] none 0 []).pages⟩ := by
  have hle := query_loop_last_eq endpoint max_records
    (max_records - 0) 0 [] none 0 [] rfl rfl
  unfold query_layer
  cases hlp : (query_loop endpoint max_records 0 [] none 0
      []).pages.getLast? with
  | none =>
    rw [hle, hlp]
    simp [lastDecodedTag, hlp]
  | some p =>
    obtain ⟨kvs, rfl⟩ := hobj p (getLast?_mem hlp)
    rw [hle, hlp]
    try simp only []
    rw [show py_get (.obj kvs) "geometryType" (.str "") =
      .ok ((objLookup kvs "geometryType").getD (.str "")) from rfl]
    try simp only []
    by_cases hfe :
        (query_loop endpoint max_records 0 [] none 0
          []).features.isEmpty = true
    · rw [hfe]
      simp [lastDecodedTag, hlp]
    · rw [Bool.not_eq_true] at hfe
      rw [hfe]
      try simp only [Bool.not_false, reduceIte]
      cases hany : objLookup kvs "geometryType" with
      | none =>
        rw [show py_contains (.obj kvs) "geometryType" = .ok false from by
          simp [py_contains, objLookup_any, hany]]
        simp [lastDecodedTag, hlp, hany]
      | some v =>
        rw [objLookup_contains hany]
        try simp only []
        rw [objLookup_getitem hany]
        simp [lastDecodedTag, hlp, hany]

/-- Witness for the amended C8: an endpoint that always fails decodes no
response, and the tag is the empty string. -/
theorem geometry_tag_last_decoded_witness :
    query_layer (fun _ => .error ()) 10000 =
      .ok ⟨(query_loop (fun _ => (.error () : Except Unit Json)) 10000 0 []
          none 0 []).features,
        lastDecodedTag (query_loop (fun _ => (.error () : Except Unit Json))
          10000 0 [] none 0 []).pages⟩ :=
  geometry_tag_last_decoded (fun _ => .error ()) 10000
    (by
      intro p hp
      rw [show (query_loop (fun _ => (.error () : Except Unit Json)) 10000
        0 [] none 0 []) = ⟨[], none, 1, []⟩ from by rw [query_loop]] at hp
      cases hp)

/-- Result assembly when the run ends on a dict response lacking the
`geometryType` key with a non-empty accumulator: the tag is the empty
string. -/
theorem query_layer_tag_default (endpoint : Nat → Except Unit Json)
    (max_records : Nat) (feats : List Json)
    (kvs : List (String × Json)) (r : Nat) (p : List Json)
    (hrun : query_loop endpoint max_records 0 [] none 0 [] =
      ⟨feats, some (.obj kvs), r, p⟩)
    (hfe : feats.isEmpty = false)
    (hnone : objLookup kvs "geometryType" = none) :
    query_layer endpoint max_records = .ok ⟨feats, .str ""⟩ := by
  unfold query_layer
  rw [hrun]
  try simp only []
  rw [show py_get (.obj kvs) "geometryType" (.str "") =
    .ok ((objLookup kvs "geometryType").getD (.str "")) from rfl, hnone]
  try simp only []
  rw [hfe]
  try simp only [Bool.not_false, reduceIte]
  rw [show py_contains (.obj kvs) "geometryType" = .ok false from by
    simp [py_contains, objLookup_any, hnone]]
  rfl

/-- The first decoded response of the C8 counterexample run: a full page
carrying a geometry-type tag. -/
def c8page0 : Json :=
  .obj [("geometryType", .str "esriGeometryPoint"),
        ("features", .arr (List.replicate 1000 .null))]

/-- The second decoded response: an empty page with no tag. -/
def c8page1 : Json := .obj [("features", .arr [])]

/-- The counterexample endpoint: page 0 full with a tag, page 1 empty and
tagless. -/
def c8Endpoint (off : Nat) : Except Unit Json :=
  if off = 0 then .ok c8page0
  else if off = 1000 then .ok c8page1 else .error ()

/-- C8 counterexample: in this run both responses decode successfully, the
last one carrying a tag carries "esriGeometryPoint", yet the fetcher
returns the empty string (the last decoded response has no tag), so the
claim's rule fails. -/
theorem geometry_tag_counterexample :
    query_layer c8Endpoint 10000 =
      .ok ⟨List.replicate 1000 .null, .str ""⟩ ∧
    (query_loop c8Endpoint 10000 0 [] none 0 []).pages =
      [c8page0, c8page1] ∧
    lastCarriedTag [c8page0, c8page1] = some (.str "esriGeometryPoint") ∧
    Json.str "" ≠ Json.str "esriGeometryPoint" := by
  have hstep1 : query_loop c8Endpoint 10000 0 [] none 0 [] =
      query_loop c8Endpoint 10000 1000 (List.replicate 1000 .null)
        (some c8page0) 1 [c8page0] := by
    rw [query_loop]
    rw [show c8Endpoint 0 = .ok c8page0 from rfl]
    try simp only []
    rw [show py_contains c8page0 "error" = .ok false from rfl]
    try simp only []
    rw [show py_get c8page0 "features" (.arr []) =
      .ok (.arr (List.replicate 1000 .null)) from rfl]
    try simp only []
    rw [show py_truthy (.arr (List.replicate 1000 Json.null)) = true from
      by simp [py_truthy, replicate_isEmpty_false]]
    try simp only [if_true, reduceIte]
    rw [show py_iter (.arr (List.replicate 1000 Json.null)) =
      .ok (List.replicate 1000 .null) from rfl]
    try simp only []
    rw [dif_neg (by
      simp only [List.nil_append, List.length_replicate]
      omega)]
    rfl
  have hstep2 : query_loop c8Endpoint 10000 1000
      (List.replicate 1000 .null) (some c8page0) 1 [c8page0] =
      ⟨List.replicate 1000 .null, some c8page1, 2, [c8page0, c8page1]⟩ := by
    rw [query_loop]
    rw [show c8Endpoint 1000 = .ok c8page1 from rfl]
    try simp only []
    rw [show py_contains c8page1 "error" = .ok false from rfl]
    try simp only []
    rw [show py_get c8page1 "features" (.arr []) = .ok (.arr []) from rfl]
    try simp only []
    rw [show py_truthy (.arr ([] : List Json)) = false from rfl]
    rfl
  have hrun := hstep1.trans hstep2
  refine ⟨?_, by rw [hrun], rfl, by simp⟩
  exact query_layer_tag_default c8Endpoint 10000
    (List.replicate 1000 .null) [("features", .arr [])] 2
    [c8page0, c8page1] hrun (replicate_isEmpty_false (by norm_num)) rfl

/-!
## Claims about the bounding box
-/

/-- The centroids of the features that have a (well-formed, non-null)
geometry, in order. -/
def locCentroids (fs : List (Option SGeom)) : List (ℚ × ℚ) :=
  fs.filterMap (fun o => o.map sgeomCentroid)

theorem bbox_collect_toJson (fs : List (Option SGeom))
    (hwf : ∀ g, some g ∈ fs → g.wf) :
    bbox_collect (fs.map toJsonFeature) =
      .ok (((locCentroids fs).map Prod.fst).map Json.num,
           ((locCentroids fs).map Prod.snd).map Json.num) := by
  induction fs with
  | nil => rfl
  | cons o rest ih =>
    have ihr := ih (fun g hg => hwf g (List.mem_cons_of_mem o hg))
    cases o with
    | none =>
      simp only [List.map_cons, bbox_collect]
      rw [show py_get (toJsonFeature none) "geometry" .null = .ok .null
        from rfl]
      try simp only []
      rw [show get_centroid .null = .ok (.null, .null) from rfl]
      try simp only []
      rw [ihr]
      simp [locCentroids]
    | some g =>
      have hc := get_centroid_toJson g (hwf g (List.mem_cons_self _ _))
      simp only [List.map_cons, bbox_collect]
      rw [show py_get (toJsonFeature (some g)) "geometry" .null =
        .ok g.toJson from rfl]
      try simp only []
      rw [hc]
      try simp only []
      rw [ihr]
      simp [locCentroids]

theorem py_minAux_nums (xs : List ℚ) : ∀ m : ℚ,
    py_minAux (.num m) (xs.map Json.num) = .ok (.num (xs.foldl min m)) := by
  induction xs with
  | nil => intro m; rfl
  | cons x rest ih =>
    intro m
    simp only [List.map_cons, py_minAux, py_lt, jsonToNum, List.foldl_cons]
    by_cases h : x < m
    · simp only [h, decide_True]
      rw [ih x, min_eq_right h.le]
    · simp only [h, decide_False]
      rw [ih m, min_eq_left (le_of_not_lt h)]

theorem py_maxAux_nums (xs : List ℚ) : ∀ m : ℚ,
    py_maxAux (.num m) (xs.map Json.num) = .ok (.num (xs.foldl max m)) := by
  induction xs with
  | nil => intro m; rfl
  | cons x rest ih =>
    intro m
    simp only [List.map_cons, py_maxAux, py_lt, jsonToNum, List.foldl_cons]
    by_cases h : m < x
    · simp only [h, decide_True]
      rw [ih x, max_eq_right h.le]
    · simp only [h, decide_False]
      rw [ih m, max_eq_left (le_of_not_lt h)]

theorem listFoldlMin_le (cs : List ℚ) : ∀ m : ℚ, cs.foldl min m ≤ m := by
  induction cs with
  | nil => intro m; simp
  | cons x rest ih =>
    intro m
    calc rest.foldl min (min m x) ≤ min m x := ih (min m x)
    _ ≤ m := min_le_left m x

theorem le_listFoldlMax (cs : List ℚ) : ∀ m : ℚ, m ≤ cs.foldl max m := by
  induction cs with
  | nil => intro m; simp
  | cons x rest ih =>
    intro m
    calc m ≤ max m x := le_max_left m x
    _ ≤ rest.foldl max (max m x) := ih (max m x)

theorem bbox_eval (fs : List (Option SGeom))
    (hwf : ∀ g, some g ∈ fs → g.wf) :
    (locCentroids fs = [] →
      get_bbox (.arr (fs.map toJsonFeature)) =
        .ok (.null, .null, .null, .null)) ∧
    (∀ c cs, locCentroids fs = c :: cs →
      get_bbox (.arr (fs.map toJsonFeature)) =
        .ok (.num ((cs.map Prod.fst).foldl min c.1),
             .num ((cs.map Prod.snd).foldl min c.2),
             .num ((cs.map Prod.fst).foldl max c.1),
             .num ((cs.map Prod.snd).foldl max c.2)) ∧
      (cs.map Prod.fst).foldl min c.1 ≤ (cs.map Prod.fst).foldl max c.1 ∧
      (cs.map Prod.snd).foldl min c.2 ≤ (cs.map Prod.snd).foldl max c.2) := by
  have hcol := bbox_collect_toJson fs hwf
  constructor
  · intro hnil
    unfold get_bbox
    rw [show py_iter (.arr (fs.map toJsonFeature)) =
      .ok (fs.map toJsonFeature) from rfl]
    try simp only []
    rw [hcol]
    simp [hnil]
  · intro c cs hcons
    rw [hcons] at hcol
    refine ⟨?_, ?_, ?_⟩
    · unfold get_bbox
      rw [show py_iter (.arr (fs.map toJsonFeature)) =
        .ok (fs.map toJsonFeature) from rfl]
      try simp only []
      rw [hcol]
      try simp only []
      rw [show ((((c :: cs).map Prod.fst).map Json.num).isEmpty = false)
        from rfl]
      rw [show ((((c :: cs).map Prod.snd).map Json.num).isEmpty = false)
        from rfl]
      try simp only [Bool.not_false, Bool.and_self, reduceIte]
      rw [show (((c :: cs).map Prod.fst).map Json.num) =
        Json.num c.1 :: ((cs.map Prod.fst).map Json.num) from by simp]
      rw [show (((c :: cs).map Prod.snd).map Json.num) =
        Json.num c.2 :: ((cs.map Prod.snd).map Json.num) from by simp]
      rw [show py_min (Json.num c.1 :: (cs.map Prod.fst).map Json.num) =
        py_minAux (.num c.1) ((cs.map Prod.fst).map Json.num) from rfl]
      rw [py_minAux_nums]
      try simp only []
      rw [show py_min (Json.num c.2 :: (cs.map Prod.snd).map Json.num) =
        py_minAux (.num c.2) ((cs.map Prod.snd).map Json.num) from rfl]
      rw [py_minAux_nums]
      try simp only []
      rw [show py_max (Json.num c.1 :: (cs.map Prod.fst).map Json.num) =
        py_maxAux (.num c.1) ((cs.map Prod.fst).map Json.num) from rfl]
      rw [py_maxAux_nums]
      try simp only []
      rw [show py_max (Json.num c.2 :: (cs.map Prod.snd).map Json.num) =
        py_maxAux (.num c.2) ((cs.map Prod.snd).map Json.num) from rfl]
      rw [py_maxAux_nums]
    · calc (cs.map Prod.fst).foldl min c.1 ≤ c.1 :=
        listFoldlMin_le (cs.map Prod.fst) c.1
      _ ≤ (cs.map Prod.fst).foldl max c.1 :=
        le_listFoldlMax (cs.map Prod.fst) c.1
    · calc (cs.map Prod.snd).foldl min c.2 ≤ c.2 :=
        listFoldlMin_le (cs.map Prod.snd) c.2
      _ ≤ (cs.map Prod.snd).foldl max c.2 :=
        le_listFoldlMax (cs.map Prod.snd) c.2

/-- C7: `get_bbox` returns exactly (min, min, max, max) of the longitudes
and latitudes of the centroids of the features whose centroid is non-null
(it is computed from feature centroids), all-null when no feature has a
locatable centroid, and a non-null result satisfies west ≤ east and
south ≤ north. -/
theorem bbox_from_centroids (fs : List (Option SGeom))
    (hwf : ∀ g, some g ∈ fs → g.wf) :
    (locCentroids fs = [] →
      get_bbox (.arr (fs.map toJsonFeature)) =
        .ok (.null, .null, .null, .null)) ∧
    (∀ c cs, locCentroids fs = c :: cs →
      get_bbox (.arr (fs.map toJsonFeature)) =
        .ok (.num ((cs.map Prod.fst).foldl min c.1),
             .num ((cs.map Prod.snd).foldl min c.2),
             .num ((cs.map Prod.fst).foldl max c.1),
             .num ((cs.map Prod.snd).foldl max c.2)) ∧
      (cs.map Prod.fst).foldl min c.1 ≤ (cs.map Prod.fst).foldl max c.1 ∧
      (cs.map Prod.snd).foldl min c.2 ≤ (cs.map Prod.snd).foldl max c.2) :=
  bbox_eval fs hwf

/-- Witness for C7: two Points at (1, 4) and (3, 2) plus a null-geometry
feature give bbox (1, 2, 3, 4). -/
theorem bbox_from_centroids_witness :
    get_bbox (.arr (([some (.point 1 4), none, some (.point 3 2)] :
        List (Option SGeom)).map toJsonFeature)) =
      .ok (.num 1, .num 2, .num 3, .num 4) := by
  have h := (bbox_from_centroids
    [some (.point 1 4), none, some (.point 3 2)]
    (by
      intro g hg
      simp only [List.mem_cons, List.not_mem_nil, or_false] at hg
      rcases hg with h | h | h
      · injection h with h2
        subst h2
        trivial
      · exact absurd h (by simp)
      · injection h with h2
        subst h2
        trivial)).2 (1, 4) [(3, 2)] rfl
  have h2 := h.1
  norm_num at h2
  exact h2

/-!
## Claims about the loader's rows
-/

/-- The GeoJSON type tag a standard geometry renders with. -/
def sgeomTypeTag : SGeom → String
  | .point _ _ => "Point"
  | .lineString _ => "LineString"
  | .polygon _ => "Polygon"
  | .multiLineString _ => "MultiLineString"
  | .multiPolygon _ => "MultiPolygon"
  | .multiPoint _ => "MultiPoint"

/-- The feature row the loader builds for a data-model Feature. -/
def featureRowOf (lid : String) : Option SGeom → FeatureRow
  | none => ⟨lid, .null, none, .null, .null, .obj []⟩
  | some s => ⟨lid, .str (sgeomTypeTag s), some s.toJson,
      .num (sgeomCentroid s).1, .num (sgeomCentroid s).2, .obj []⟩

theorem featureRow_toJson (lid : String) (g : Option SGeom)
    (hwf : ∀ s, g = some s → s.wf) :
    featureRow lid (toJsonFeature g) = .ok (featureRowOf lid g) := by
  cases g with
  | none => rfl
  | some s =>
    have hc := get_centroid_toJson s (hwf s rfl)
    have htr : py_truthy s.toJson = true := by cases s <;> rfl
    have hty : py_get s.toJson "type" .null = .ok (.str (sgeomTypeTag s)) :=
      by cases s <;> rfl
    unfold featureRow
    rw [show py_get (toJsonFeature (some s)) "geometry" .null =
      .ok s.toJson from rfl]
    try simp only []
    rw [show py_get (toJsonFeature (some s)) "properties" (.obj []) =
      .ok (.obj []) from rfl]
    try simp only []
    rw [hc]
    try simp only []
    rw [htr]
    try simp only [if_true, reduceIte]
    rw [hty]
    rfl

/-- C9 (amended): every row built from a data-model Feature has null
centroid fields exactly when its geometry is null; a well-formed non-null
geometry always yields non-null (numeric) centroid fields.  (The original
claim's "malformed geometry ⇒ null centroid" direction fails: see the
counterexample.) -/
theorem centroid_null_iff_no_geometry (lid : String) (g : Option SGeom)
    (hwf : ∀ s, g = some s → s.wf) :
    ∃ row, featureRow lid (toJsonFeature g) = .ok row ∧
      ((row.centroid_lon = Json.null ∧ row.centroid_lat = Json.null) ↔
        g = none) := by
  refine ⟨featureRowOf lid g, featureRow_toJson lid g hwf, ?_⟩
  cases g with
  | none => simp [featureRowOf]
  | some s => simp [featureRowOf]

/-- Witness for the amended C9: a Point feature gets non-null centroids. -/
theorem centroid_null_iff_no_geometry_witness :
    ∃ row, featureRow "l" (toJsonFeature (some (.point 1 2))) = .ok row ∧
      ((row.centroid_lon = Json.null ∧ row.centroid_lat = Json.null) ↔
        (some (SGeom.point 1 2) : Option SGeom) = none) :=
  centroid_null_iff_no_geometry "l" (some (.point 1 2))
    (fun s hs => by
      injection hs with h
      rw [← h]
      trivial)

/-- A Point whose coordinates are strings: truthy (non-null) but not a
well-formed standard geometry. -/
def malformedPointGeom : Json :=
  .obj [("type", .str "Point"), ("coordinates", .arr [.str "a", .str "b"])]

/-- The feature wrapping `malformedPointGeom`. -/
def malformedPointFeature : Json :=
  .obj [("type", .str "Feature"), ("geometry", malformedPointGeom),
        ("properties", .obj [])]

/-- A numeric coordinate pair. -/
def isNumPair : Json → Bool
  | .arr [.num _, .num _] => true
  | _ => false

/-- A non-empty ring/line of numeric pairs. -/
def isNumRing : Json → Bool
  | .arr cs => !cs.isEmpty && cs.all isNumPair
  | _ => false

/-- A non-empty polygon: rings of numeric pairs. -/
def isNumPoly : Json → Bool
  | .arr rs => !rs.isEmpty && rs.all isNumRing
  | _ => false

/-- Modelled from the spec's data model (§3): a well-formed non-null
StandardGeometry rendered as JSON — a tagged object whose coordinates
payload is numeric with the nesting depth of its tag. -/
def isWellFormedGeom (j : Json) : Bool :=
  match j with
  | .obj kvs =>
    match objLookup kvs "type", objLookup kvs "coordinates" with
    | some (.str "Point"), some c => isNumPair c
    | some (.str "LineString"), some c => isNumRing c
    | some (.str "MultiPoint"), some c => isNumRing c
    | some (.str "Polygon"), some c => isNumPoly c
    | some (.str "MultiLineString"), some c => isNumPoly c
    | some (.str "MultiPolygon"), some (.arr ps) =>
      !ps.isEmpty && ps.all isNumPoly
    | _, _ => false
  | _ => false

/-- C9 counterexample: a malformed (truthy, not well-formed) Point whose
coordinates are the strings "a"/"b" produces a feature row whose centroid
fields are those strings — non-null — contradicting "null exactly when
geometry is null or malformed". -/
theorem centroid_malformed_nonnull :
    py_truthy malformedPointGeom = true ∧
    isWellFormedGeom malformedPointGeom = false ∧
    ∃ row, featureRow "layer" malformedPointFeature = .ok row ∧
      row.centroid_lon = .str "a" ∧ row.centroid_lon ≠ Json.null :=
  ⟨rfl, rfl,
   ⟨⟨"layer", .str "Point", some malformedPointGeom, .str "a", .str "b",
     .obj []⟩, rfl, rfl, by simp⟩⟩

/-!
## Claims about the loader's per-artifact bookkeeping
-/

/-- The artifact a layer's run writes: a FeatureCollection of data-model
Features (same shape `esri_to_geojson` serializes). -/
def fcJson (fs : List (Option SGeom)) : Json :=
  .obj [("type", .str "FeatureCollection"),
        ("features", .arr (fs.map toJsonFeature))]

theorem insertBatch_eval (lid : String) (rowF : Json → FeatureRow) :
    ∀ batch : List Json, (∀ f ∈ batch, featureRow lid f = .ok (rowF f)) →
      insertBatch lid batch = .ok (batch.map rowF) := by
  intro batch
  induction batch with
  | nil => intro _; rfl
  | cons f rest ih =>
    intro h
    simp only [insertBatch, h f (List.mem_cons_self f rest),
      ih (fun x hx => h x (List.mem_cons_of_mem f hx)), List.map_cons]

theorem batchRows_eval (lid : String) (rowF : Json → FeatureRow)
    (l : List Json) (hrow : ∀ f ∈ l, featureRow lid f = .ok (rowF f)) :
    ∀ (m j : Nat), l.length ≤ 500 * (j + m) →
      batchRows (.arr l) lid ((List.range m).map (fun k => (j + k) * 500))
        = .ok ((l.drop (j * 500)).map rowF) := by
  intro m
  induction m with
  | zero =>
    intro j hlen
    rw [show l.drop (j * 500) = [] from
      List.drop_eq_nil_of_le (by omega)]
    rfl
  | succ m ih =>
    intro j hlen
    rw [List.range_succ_eq_map, List.map_cons, List.map_map]
    have htail : (List.range m).map ((fun k => (j + k) * 500) ∘ Nat.succ)
        = (List.range m).map (fun k => ((j + 1) + k) * 500) := by
      apply List.map_congr_left
      intro k _
      simp only [Function.comp_apply]
      omega
    rw [htail, show (j + 0) * 500 = j * 500 from by ring]
    simp only [batchRows]
    rw [show py_slice (.arr l) (j * 500) (j * 500 + 500) =
      .ok (.arr ((l.drop (j * 500)).take 500)) from by
        simp only [py_slice, Nat.add_sub_cancel_left]]
    try simp only []
    rw [show py_iter (.arr ((l.drop (j * 500)).take 500)) =
      .ok ((l.drop (j * 500)).take 500) from rfl]
    try simp only []
    rw [insertBatch_eval lid rowF _ (fun f hf =>
      hrow f (List.drop_subset _ _ (List.take_subset _ _ hf)))]
    try simp only []
    rw [ih (j + 1) (by omega)]
    try simp only []
    have hd : l.drop ((j + 1) * 500) = (l.drop (j * 500)).drop 500 := by
      rw [show (j + 1) * 500 = j * 500 + 500 from by ring]
      exact (List.drop_drop 500 (j * 500) l).symm
    rw [← List.map_append, hd,
      List.take_append_drop 500 (l.drop (j * 500))]

theorem firstGeomType_ok (fs : List (Option SGeom)) :
    ∃ t, firstGeomType (fs.map toJsonFeature) = .ok t := by
  induction fs with
  | nil => exact ⟨.null, rfl⟩
  | cons o rest ih =>
    cases o with
    | none =>
      simp only [List.map_cons, firstGeomType]
      rw [show py_get (toJsonFeature none) "geometry" .null = .ok .null
        from rfl]
      try simp only []
      rw [show py_truthy Json.null = false from rfl]
      try simp only [Bool.false_eq_true, if_false]
      exact ih
    | some s =>
      simp only [List.map_cons, firstGeomType]
      rw [show py_get (toJsonFeature (some s)) "geometry" .null =
        .ok s.toJson from rfl]
      try simp only []
      rw [show py_truthy s.toJson = true from by cases s <;> rfl]
      try simp only [if_true, reduceIte]
      rw [show py_getitem_str (toJsonFeature (some s)) "geometry" =
        .ok s.toJson from rfl]
      try simp only []
      exact ⟨.str (sgeomTypeTag s), by cases s <;> rfl⟩

theorem get_bbox_ok (fs : List (Option SGeom))
    (hwf : ∀ g, some g ∈ fs → g.wf) :
    ∃ bb, get_bbox (.arr (fs.map toJsonFeature)) = .ok bb := by
  cases h : locCentroids fs with
  | nil => exact ⟨_, (bbox_eval fs hwf).1 h⟩
  | cons c cs => exact ⟨_, ((bbox_eval fs hwf).2 c cs h).1⟩

/-- The row `featureRow` would produce, as a total function (used to name
the rows of a successful batch). -/
def rowFOf (lid : String) (f : Json) : FeatureRow :=
  match featureRow lid f with
  | .ok r => r
  | .error _ => ⟨lid, .null, none, .null, .null, .null⟩

theorem rowFOf_eq {lid : String} {g : Option SGeom}
    (hwf : ∀ s, g = some s → s.wf) :
    rowFOf lid (toJsonFeature g) = featureRowOf lid g := by
  unfold rowFOf
  rw [featureRow_toJson lid g hwf]

theorem featureRowOf_layer_id (lid : String) (g : Option SGeom) :
    (featureRowOf lid g).layer_id = lid := by
  cases g <;> rfl

/-- C10: for every accepted artifact loaded without error, the layers row's
feature_count equals the length of the artifact's feature list, and that
equals the number of feature rows inserted with that layer id
(null-geometry features included). -/
theorem loader_counts (filename : String) (fs : List (Option SGeom))
    (hne : fs ≠ []) (hwf : ∀ g, some g ∈ fs → g.wf) :
    ∃ (layer : LayerRow) (rows : List FeatureRow),
      load_geojson_file filename (fcJson fs) = .ok (some (layer, rows)) ∧
      layer.feature_count = fs.length ∧
      rows.length = fs.length ∧
      (∀ r ∈ rows, r.layer_id = layer.id) ∧
      layer.id = filename.replace ".geojson" "" := by
  obtain ⟨f0, fs', rfl⟩ := List.exists_cons_of_ne_nil hne
  obtain ⟨gt, hgt⟩ := firstGeomType_ok (f0 :: fs')
  obtain ⟨bb, hbb⟩ := get_bbox_ok (f0 :: fs') hwf
  have hrow : ∀ f ∈ (f0 :: fs').map toJsonFeature,
      featureRow (filename.replace ".geojson" "") f =
        .ok (rowFOf (filename.replace ".geojson" "") f) := by
    intro f hf
    obtain ⟨g, hg, rfl⟩ := List.mem_map.mp hf
    have hwg : ∀ s, g = some s → s.wf := fun s hs => hwf s (hs ▸ hg)
    rw [featureRow_toJson _ g hwg, rowFOf_eq hwg]
  have hbatch := batchRows_eval (filename.replace ".geojson" "")
    (rowFOf (filename.replace ".geojson" ""))
    ((f0 :: fs').map toJsonFeature) hrow
    ((((f0 :: fs').map toJsonFeature).length + 499) / 500) 0
    (by omega)
  have hidx : pyRange3 (((f0 :: fs').map toJsonFeature).length) 500 =
      (List.range ((((f0 :: fs').map toJsonFeature).length + 499) / 500)
        ).map (fun k => (0 + k) * 500) := by
    unfold pyRange3
    rw [show ((f0 :: fs').map toJsonFeature).length + 500 - 1 =
      ((f0 :: fs').map toJsonFeature).length + 499 from by omega]
    apply List.map_congr_left
    intro k _
    omega
  refine ⟨⟨filename.replace ".geojson" "",
    pyTitle ((((filename.replace ".geojson" "").replace "_" " ").replace
      "-" " ")), filename, gt,
    ((f0 :: fs').map toJsonFeature).length, bb⟩,
    (((f0 :: fs').map toJsonFeature).drop (0 * 500)).map
      (rowFOf (filename.replace ".geojson" "")), ?_, ?_, ?_, ?_, rfl⟩
  · unfold load_geojson_file
    rw [show py_get (fcJson (f0 :: fs')) "features" (.arr []) =
      .ok (.arr ((f0 :: fs').map toJsonFeature)) from rfl]
    try simp only []
    rw [show py_truthy (.arr ((f0 :: fs').map toJsonFeature)) = true
      from rfl]
    try simp only [if_true, reduceIte]
    rw [show py_iter (.arr ((f0 :: fs').map toJsonFeature)) =
      .ok ((f0 :: fs').map toJsonFeature) from rfl]
    try simp only []
    rw [hgt]
    try simp only []
    rw [hbb]
    try simp only []
    rw [show py_len (.arr ((f0 :: fs').map toJsonFeature)) =
      .ok ((f0 :: fs').map toJsonFeature).length from rfl]
    try simp only []
    rw [hidx, hbatch]
  · simp
  · simp
  · intro r hr
    simp only [Nat.zero_mul, List.drop_zero] at hr
    obtain ⟨f, hf, rfl⟩ := List.mem_map.mp hr
    obtain ⟨g, hg, rfl⟩ := List.mem_map.mp hf
    have hwg : ∀ s, g = some s → s.wf := fun s hs => hwf s (hs ▸ hg)
    rw [rowFOf_eq hwg]
    exact featureRowOf_layer_id _ g

/-- Witness for C10: a two-feature artifact (a Point and a null geometry)
loads with feature_count 2 and 2 inserted rows carrying the layer id. -/
theorem loader_counts_witness :
    ∃ (layer : LayerRow) (rows : List FeatureRow),
      load_geojson_file "a_layer0.geojson"
        (fcJson [some (.point 1 2), none]) = .ok (some (layer, rows)) ∧
      layer.feature_count = 2 ∧
      rows.length = 2 ∧
      (∀ r ∈ rows, r.layer_id = layer.id) ∧
      layer.id = "a_layer0.geojson".replace ".geojson" "" := by
  have h := loader_counts "a_layer0.geojson" [some (.point 1 2), none]
    (by simp)
    (by
      intro g hg
      simp only [List.mem_cons, List.not_mem_nil, or_false] at hg
      rcases hg with h | h
      · injection h with h2
        subst h2
        trivial
      · exact absurd h (by simp))
  simpa using h
